import Mathlib

/-!
# The iRobot navigation statechart

A shallow embedding of `irobotNavigationStatechart`
(`src/iRobotNavigation/src/C Statechart/irobotNavigationStatechart.c`) and
theorems about it.

The C function keeps its state in `static` locals; here they are the fields of
the record `Statics`, which one evaluation takes and returns together with the
two wheel speeds it writes through its output pointers.

Integers.  The odometry readings and the bookkeeping variables are `int32_t`,
the wheel speeds `int16_t`.  There are two embeddings of the function.

* `transition32`, `irobotNavigationStatechart32`, `step32`, `run32` reduce every
  operation on `int32_t` to 32 bits in two's complement (`wrap32`, `abs32`), as
  the compiled code computes it; in particular `abs32 (-2147483648)` is
  `-2147483648`.  The statements about the distances, angles and thresholds
  that single evaluations compute (the collision, the BACK threshold, the
  end-to-end scenario, the completion of the final right turn, rules 4 to 6 of
  DRIVE) are proved of this embedding, with the bounds they need stated.
* `transition`, `irobotNavigationStatechart`, `step`, `run` read the same code
  over the mathematical integers.  They carry the statements that do not depend
  on the width of the integers (the pause logic, the output mapping, the order
  of the states, the invariants of the executions) and the one that is stated
  for unbounded integers; the last section checks those that mention an angle
  or a reference on the 32-bit embedding as well.

`transition32_eq_transition` shows that the two agree on every evaluation in
which no intermediate value leaves the 32-bit range.
-/

namespace IRobotNavigation

/-- Program states (`robotState_t`). -/
inductive robotState_t where
  | INITIAL
  | PAUSE_WAIT_BUTTON_RELEASE
  | UNPAUSE_WAIT_BUTTON_PRESS
  | UNPAUSE_WAIT_BUTTON_RELEASE
  | DRIVE
  | TURNLEFT
  | TURNRIGHT
  | STOP
  | BACK
  deriving DecidableEq

open robotState_t

/-- Modelled from the spec: the bump and wheel-drop bits of the sensor packet; the
header declaring them is not among the sources, and only the two bumper bits the
statechart reads are kept. -/
structure bumps_wheelDrops_t where
  bumpLeft : Bool
  bumpRight : Bool
  deriving DecidableEq

/-- Modelled from the spec: the button bits of the sensor packet; only the play
(pause) button is read by the statechart. -/
structure buttons_t where
  play : Bool
  deriving DecidableEq

/-- Modelled from the spec: the sensor snapshot `irobotSensorGroup6_t`, whose
declaration is in a header outside the sources, restricted to the fields that
the statechart reads. -/
structure irobotSensorGroup6_t where
  bumps_wheelDrops : bumps_wheelDrops_t
  buttons : buttons_t
  deriving DecidableEq

/-- The `static` locals of `irobotNavigationStatechart`. -/
structure Statics where
  state : robotState_t
  unpausedState : robotState_t
  distanceAtManeuverStart : Int
  angleAtManeuverStart : Int
  bump : Bool
  passed : Bool
  driveForAdjustment : Bool
  timeToAdjustAngle : Bool
  rightTurnAngle : Int
  leftTurnAngle : Int
  distance : Int
  angle : Int
  deriving DecidableEq

/-- The initialisers of the `static` locals. -/
def Statics.init : Statics :=
  { state := INITIAL
    unpausedState := DRIVE
    distanceAtManeuverStart := 0
    angleAtManeuverStart := 0
    bump := false
    passed := false
    driveForAdjustment := false
    timeToAdjustAngle := false
    rightTurnAngle := 90
    leftTurnAngle := 90
    distance := 0
    angle := 0 }

/-- The two values written through `pRightWheelSpeed`, `pLeftWheelSpeed`. -/
structure WheelSpeeds where
  rightWheelSpeed : Int
  leftWheelSpeed : Int
  deriving DecidableEq

/-- The C library function `abs`, read over the mathematical integers; `abs32` is
its 32-bit form. -/
def abs (x : Int) : Int :=
  if x < 0 then -x else x

/-- The state-transition part of `irobotNavigationStatechart` (pause region,
then run region), read over the mathematical integers: the statics after the
transition code has run.  `transition32` is the same code in 32-bit arithmetic. -/
def transition (netDistance netAngle : Int) (sensors : irobotSensorGroup6_t)
    (isSimulator : Bool) (s : Statics) : Statics :=
  if s.state = INITIAL
      ∨ s.state = PAUSE_WAIT_BUTTON_RELEASE
      ∨ s.state = UNPAUSE_WAIT_BUTTON_PRESS
      ∨ s.state = UNPAUSE_WAIT_BUTTON_RELEASE
      ∨ sensors.buttons.play = true then
    match s.state with
    | INITIAL =>
      let s1 := if isSimulator then s else s
      { s1 with state := UNPAUSE_WAIT_BUTTON_PRESS }
    | PAUSE_WAIT_BUTTON_RELEASE =>
      if !sensors.buttons.play then { s with state := UNPAUSE_WAIT_BUTTON_PRESS } else s
    | UNPAUSE_WAIT_BUTTON_RELEASE =>
      if !sensors.buttons.play then { s with state := s.unpausedState } else s
    | UNPAUSE_WAIT_BUTTON_PRESS =>
      if sensors.buttons.play then { s with state := UNPAUSE_WAIT_BUTTON_RELEASE } else s
    | _ =>
      { s with unpausedState := s.state, state := PAUSE_WAIT_BUTTON_RELEASE }
  else if s.state = DRIVE then
    if sensors.bumps_wheelDrops.bumpLeft && sensors.bumps_wheelDrops.bumpRight then
      { s with
        bump := true
        rightTurnAngle := 90
        angle := s.angle + 90
        angleAtManeuverStart := netAngle
        distanceAtManeuverStart := netDistance
        state := BACK }
    else if sensors.bumps_wheelDrops.bumpLeft then
      { s with
        bump := true
        rightTurnAngle := 30
        angle := s.angle + 30
        angleAtManeuverStart := netAngle
        distanceAtManeuverStart := netDistance
        state := BACK }
    else if sensors.bumps_wheelDrops.bumpRight then
      { s with
        bump := true
        rightTurnAngle := 145
        angle := s.angle + 145
        angleAtManeuverStart := netAngle
        distanceAtManeuverStart := netDistance
        state := BACK }
    else if !s.passed && s.driveForAdjustment
        && decide (abs (netDistance - s.distanceAtManeuverStart) ≥ 500) then
      { s with
        distance := s.distance + abs (netDistance - s.distanceAtManeuverStart)
        angleAtManeuverStart := netAngle
        distanceAtManeuverStart := netDistance
        driveForAdjustment := false
        angle := s.angle - s.leftTurnAngle
        state := TURNLEFT }
    else if s.passed && s.timeToAdjustAngle
        && decide (abs (netDistance - s.distanceAtManeuverStart) ≥ s.distance) then
      { s with
        angleAtManeuverStart := netAngle
        distanceAtManeuverStart := netDistance
        timeToAdjustAngle := false
        rightTurnAngle := abs s.angle
        state := TURNRIGHT }
    else if s.bump && decide (abs (netDistance - s.distanceAtManeuverStart) ≥ 600) then
      { s with
        angleAtManeuverStart := netAngle
        distanceAtManeuverStart := netDistance
        bump := false
        passed := true
        timeToAdjustAngle := true
        state := TURNLEFT
        angle := s.angle - s.leftTurnAngle }
    else s
  else if s.state = TURNRIGHT ∧ abs (netAngle - s.angleAtManeuverStart) ≥ s.rightTurnAngle then
    let s1 : Statics :=
      { s with
        angleAtManeuverStart := netAngle
        distanceAtManeuverStart := netDistance
        driveForAdjustment := true }
    let s2 : Statics :=
      if s1.passed then
        { s1 with
          bump := false
          passed := false
          driveForAdjustment := false
          timeToAdjustAngle := false
          rightTurnAngle := 90
          leftTurnAngle := 90
          distance := 0
          angle := 0 }
      else s1
    { s2 with state := DRIVE }
  else if s.state = TURNLEFT ∧ abs (netAngle - s.angleAtManeuverStart) ≥ s.leftTurnAngle then
    { s with
      driveForAdjustment := false
      angleAtManeuverStart := netAngle
      distanceAtManeuverStart := netDistance
      state := DRIVE }
  else if s.state = BACK ∧ abs (netDistance - s.distanceAtManeuverStart) ≥ 50 then
    { s with
      angleAtManeuverStart := netAngle
      distanceAtManeuverStart := netDistance
      state := TURNRIGHT }
  else s

/-- The state-action part of `irobotNavigationStatechart`: the final `switch`
that sets the wheel speeds from the current state. -/
def stateActions (state : robotState_t) : WheelSpeeds :=
  match state with
  | INITIAL | PAUSE_WAIT_BUTTON_RELEASE | UNPAUSE_WAIT_BUTTON_PRESS
  | UNPAUSE_WAIT_BUTTON_RELEASE =>
    { leftWheelSpeed := 0, rightWheelSpeed := 0 }
  | DRIVE =>
    { leftWheelSpeed := 150, rightWheelSpeed := 150 }
  | TURNRIGHT =>
    let leftWheelSpeed : Int := 100
    { leftWheelSpeed := leftWheelSpeed, rightWheelSpeed := -leftWheelSpeed }
  | TURNLEFT =>
    let rightWheelSpeed : Int := 100
    { leftWheelSpeed := -rightWheelSpeed, rightWheelSpeed := rightWheelSpeed }
  | BACK =>
    { rightWheelSpeed := -100, leftWheelSpeed := -100 }
  | STOP =>
    { leftWheelSpeed := 0, rightWheelSpeed := 0 }

/-- One evaluation of `irobotNavigationStatechart` over the mathematical
integers: the statics it leaves behind and the wheel speeds it writes.  The
accelerometer reading has a type declared
outside the sources and is never read, so its type is a parameter. -/
def irobotNavigationStatechart {accelerometer_t : Type} (netDistance netAngle : Int)
    (sensors : irobotSensorGroup6_t) (_accel : accelerometer_t) (isSimulator : Bool)
    (s : Statics) : Statics × WheelSpeeds :=
  let s1 := transition netDistance netAngle sensors isSimulator s
  (s1, stateActions s1.state)

/-- One sensor snapshot: the five inputs of one call. -/
structure Snapshot (accelerometer_t : Type) where
  netDistance : Int
  netAngle : Int
  sensors : irobotSensorGroup6_t
  accel : accelerometer_t
  isSimulator : Bool

/-- The statics after one evaluation on the snapshot `x`. -/
def step {accelerometer_t : Type} (s : Statics) (x : Snapshot accelerometer_t) : Statics :=
  (irobotNavigationStatechart x.netDistance x.netAngle x.sensors x.accel x.isSimulator s).1

/-- The wheel speeds written by one evaluation on the snapshot `x`. -/
def speeds {accelerometer_t : Type} (s : Statics) (x : Snapshot accelerometer_t) : WheelSpeeds :=
  (irobotNavigationStatechart x.netDistance x.netAngle x.sensors x.accel x.isSimulator s).2

/-- The statics after consecutive evaluations on the snapshots `xs`, first to last. -/
def run {accelerometer_t : Type} (s : Statics) (xs : List (Snapshot accelerometer_t)) : Statics :=
  xs.foldl step s

/-- Reduction to the 32-bit two's complement range: the value that an `int32_t`
holds after an operation whose exact result is `x`. -/
def wrap32 (x : Int) : Int :=
  (x + 2147483648) % 4294967296 - 2147483648

/-- The C library function `abs` on a 32-bit `int`: the negation is itself a
32-bit operation, so that `abs32 (-2147483648) = -2147483648`. -/
def abs32 (x : Int) : Int :=
  if x < 0 then wrap32 (-x) else x

/-- The state-transition part of `irobotNavigationStatechart` with every
operation on `int32_t` reduced to 32 bits, as the compiled code computes it. -/
def transition32 (netDistance netAngle : Int) (sensors : irobotSensorGroup6_t)
    (isSimulator : Bool) (s : Statics) : Statics :=
  if s.state = INITIAL
      ∨ s.state = PAUSE_WAIT_BUTTON_RELEASE
      ∨ s.state = UNPAUSE_WAIT_BUTTON_PRESS
      ∨ s.state = UNPAUSE_WAIT_BUTTON_RELEASE
      ∨ sensors.buttons.play = true then
    match s.state with
    | INITIAL =>
      let s1 := if isSimulator then s else s
      { s1 with state := UNPAUSE_WAIT_BUTTON_PRESS }
    | PAUSE_WAIT_BUTTON_RELEASE =>
      if !sensors.buttons.play then { s with state := UNPAUSE_WAIT_BUTTON_PRESS } else s
    | UNPAUSE_WAIT_BUTTON_RELEASE =>
      if !sensors.buttons.play then { s with state := s.unpausedState } else s
    | UNPAUSE_WAIT_BUTTON_PRESS =>
      if sensors.buttons.play then { s with state := UNPAUSE_WAIT_BUTTON_RELEASE } else s
    | _ =>
      { s with unpausedState := s.state, state := PAUSE_WAIT_BUTTON_RELEASE }
  else if s.state = DRIVE then
    if sensors.bumps_wheelDrops.bumpLeft && sensors.bumps_wheelDrops.bumpRight then
      { s with
        bump := true
        rightTurnAngle := 90
        angle := wrap32 (s.angle + 90)
        angleAtManeuverStart := netAngle
        distanceAtManeuverStart := netDistance
        state := BACK }
    else if sensors.bumps_wheelDrops.bumpLeft then
      { s with
        bump := true
        rightTurnAngle := 30
        angle := wrap32 (s.angle + 30)
        angleAtManeuverStart := netAngle
        distanceAtManeuverStart := netDistance
        state := BACK }
    else if sensors.bumps_wheelDrops.bumpRight then
      { s with
        bump := true
        rightTurnAngle := 145
        angle := wrap32 (s.angle + 145)
        angleAtManeuverStart := netAngle
        distanceAtManeuverStart := netDistance
        state := BACK }
    else if !s.passed && s.driveForAdjustment
        && decide (abs32 (wrap32 (netDistance - s.distanceAtManeuverStart)) ≥ 500) then
      { s with
        distance :=
          wrap32 (s.distance + abs32 (wrap32 (netDistance - s.distanceAtManeuverStart)))
        angleAtManeuverStart := netAngle
        distanceAtManeuverStart := netDistance
        driveForAdjustment := false
        angle := wrap32 (s.angle - s.leftTurnAngle)
        state := TURNLEFT }
    else if s.passed && s.timeToAdjustAngle
        && decide (abs32 (wrap32 (netDistance - s.distanceAtManeuverStart)) ≥ s.distance) then
      { s with
        angleAtManeuverStart := netAngle
        distanceAtManeuverStart := netDistance
        timeToAdjustAngle := false
        rightTurnAngle := abs32 s.angle
        state := TURNRIGHT }
    else if s.bump
        && decide (abs32 (wrap32 (netDistance - s.distanceAtManeuverStart)) ≥ 600) then
      { s with
        angleAtManeuverStart := netAngle
        distanceAtManeuverStart := netDistance
        bump := false
        passed := true
        timeToAdjustAngle := true
        state := TURNLEFT
        angle := wrap32 (s.angle - s.leftTurnAngle) }
    else s
  else if s.state = TURNRIGHT
      ∧ abs32 (wrap32 (netAngle - s.angleAtManeuverStart)) ≥ s.rightTurnAngle then
    let s1 : Statics :=
      { s with
        angleAtManeuverStart := netAngle
        distanceAtManeuverStart := netDistance
        driveForAdjustment := true }
    let s2 : Statics :=
      if s1.passed then
        { s1 with
          bump := false
          passed := false
          driveForAdjustment := false
          timeToAdjustAngle := false
          rightTurnAngle := 90
          leftTurnAngle := 90
          distance := 0
          angle := 0 }
      else s1
    { s2 with state := DRIVE }
  else if s.state = TURNLEFT
      ∧ abs32 (wrap32 (netAngle - s.angleAtManeuverStart)) ≥ s.leftTurnAngle then
    { s with
      driveForAdjustment := false
      angleAtManeuverStart := netAngle
      distanceAtManeuverStart := netDistance
      state := DRIVE }
  else if s.state = BACK
      ∧ abs32 (wrap32 (netDistance - s.distanceAtManeuverStart)) ≥ 50 then
    { s with
      angleAtManeuverStart := netAngle
      distanceAtManeuverStart := netDistance
      state := TURNRIGHT }
  else s

/-- One evaluation of `irobotNavigationStatechart` in 32-bit arithmetic: the
statics it leaves behind and the wheel speeds it writes. -/
def irobotNavigationStatechart32 {accelerometer_t : Type} (netDistance netAngle : Int)
    (sensors : irobotSensorGroup6_t) (_accel : accelerometer_t) (isSimulator : Bool)
    (s : Statics) : Statics × WheelSpeeds :=
  let s1 := transition32 netDistance netAngle sensors isSimulator s
  (s1, stateActions s1.state)

/-- The statics after one evaluation in 32-bit arithmetic on the snapshot `x`. -/
def step32 {accelerometer_t : Type} (s : Statics) (x : Snapshot accelerometer_t) : Statics :=
  (irobotNavigationStatechart32 x.netDistance x.netAngle x.sensors x.accel x.isSimulator s).1

/-- The wheel speeds written by one evaluation in 32-bit arithmetic. -/
def speeds32 {accelerometer_t : Type} (s : Statics) (x : Snapshot accelerometer_t) :
    WheelSpeeds :=
  (irobotNavigationStatechart32 x.netDistance x.netAngle x.sensors x.accel x.isSimulator s).2

/-- The statics after consecutive evaluations in 32-bit arithmetic. -/
def run32 {accelerometer_t : Type} (s : Statics) (xs : List (Snapshot accelerometer_t)) :
    Statics :=
  xs.foldl step32 s

/-- The value is representable as an `int32_t`. -/
def fits32 (x : Int) : Prop :=
  -2147483648 ≤ x ∧ x ≤ 2147483647

instance (x : Int) : Decidable (fits32 x) := by
  unfold fits32
  infer_instance

/-- The statics of the end-to-end scenario: state DRIVE with every other static
at its initial value. -/
def driveStart : Statics :=
  { Statics.init with state := DRIVE }

/-- A state in the final corrective right turn of a recovery: TURNRIGHT with
passed set, a turn of 60 degrees owed and 520 mm of clearance recorded. -/
def finalTurnStatics : Statics :=
  { Statics.init with
    state := TURNRIGHT, passed := true, rightTurnAngle := 60, distance := 520, angle := -60 }

/-- A snapshot that completes the turn of finalTurnStatics: net angle 60, no
bumper set, pause button not pressed. -/
def finalTurnSnapshot : Snapshot Unit :=
  ⟨1500, 60, ⟨⟨false, false⟩, ⟨false⟩⟩, (), false⟩

/-- The run region: the states that are not handled by the pause-region code
unless the pause button is pressed. -/
def runRegion (st : robotState_t) : Prop :=
  st = DRIVE ∨ st = TURNLEFT ∨ st = TURNRIGHT ∨ st = BACK ∨ st = STOP

instance (st : robotState_t) : Decidable (runRegion st) := by
  unfold runRegion
  infer_instance

/-- The maneuver memory other than `unpausedState` is the same in `s` and `t`. -/
def sameMemory (s t : Statics) : Prop :=
  t.distanceAtManeuverStart = s.distanceAtManeuverStart
    ∧ t.angleAtManeuverStart = s.angleAtManeuverStart
    ∧ t.bump = s.bump
    ∧ t.passed = s.passed
    ∧ t.driveForAdjustment = s.driveForAdjustment
    ∧ t.timeToAdjustAngle = s.timeToAdjustAngle
    ∧ t.rightTurnAngle = s.rightTurnAngle
    ∧ t.leftTurnAngle = s.leftTurnAngle
    ∧ t.distance = s.distance
    ∧ t.angle = s.angle

instance (s t : Statics) : Decidable (sameMemory s t) := by
  unfold sameMemory
  infer_instance

/-- The run-region state that the statics stand for: the state itself, or, while
paused, the state that a resume goes back to. -/
def resumeState (s : Statics) : robotState_t :=
  match s.state with
  | INITIAL | PAUSE_WAIT_BUTTON_RELEASE | UNPAUSE_WAIT_BUTTON_PRESS
  | UNPAUSE_WAIT_BUTTON_RELEASE => s.unpausedState
  | st => st

/-- The staging of the recovery flags and of the clearance distance, in a form
that every evaluation preserves. -/
def staged (s : Statics) : Prop :=
  (s.timeToAdjustAngle = true → s.passed = true)
    ∧ (s.passed = true → s.distance ≥ 500)
    ∧ 0 ≤ s.distance
    ∧ (resumeState s = DRIVE → s.bump = true → s.passed = false →
        s.driveForAdjustment = false → s.distance ≥ 500)
    ∧ (resumeState s = TURNLEFT → s.bump = true → s.passed = false → s.distance ≥ 500)

/-- The states after each evaluation of a run, first to last. -/
def visited {accelerometer_t : Type} (s : Statics) :
    List (Snapshot accelerometer_t) → List robotState_t
  | [] => []
  | x :: xs => (step s x).state :: visited (step s x) xs

/-- A sequence of states with consecutive repeats collapsed. -/
def collapse : List robotState_t → List robotState_t
  | [] => []
  | [a] => [a]
  | a :: b :: l => if a = b then collapse (b :: l) else a :: collapse (b :: l)

/-- The recovery memory is at its idle defaults: the values that the reset block
of the TURNRIGHT branch assigns. -/
def idleMemory (s : Statics) : Prop :=
  s.bump = false ∧ s.passed = false ∧ s.driveForAdjustment = false
    ∧ s.timeToAdjustAngle = false ∧ s.rightTurnAngle = 90 ∧ s.leftTurnAngle = 90
    ∧ s.distance = 0 ∧ s.angle = 0

instance (s : Statics) : Decidable (idleMemory s) := by
  unfold idleMemory
  infer_instance

/-- The leg of a recovery that the statics are in, read off the state and the
flags: 1 backing away, 2 first right turn, 3 adjustment leg, 4 first left turn,
5 clearance leg, 6 second left turn, 7 return leg, 8 final right turn, 9 idle
again; 0 for anything else. -/
def phase (s : Statics) : Nat :=
  match s.state, s.passed, s.bump with
  | BACK, false, true => 1
  | TURNRIGHT, false, true => 2
  | DRIVE, false, true => if s.driveForAdjustment then 3 else 5
  | TURNLEFT, false, true => 4
  | TURNLEFT, true, false => 6
  | DRIVE, true, false => 7
  | TURNRIGHT, true, _ => 8
  | DRIVE, false, false => if idleMemory s then 9 else 0
  | _, _, _ => 0

/-- The states of the legs 1 to 8 of a recovery, in order. -/
def protocol : List robotState_t :=
  [BACK, TURNRIGHT, DRIVE, TURNLEFT, DRIVE, TURNLEFT, DRIVE, TURNRIGHT]


/-- A collision for the recovery example: odometry (0, 0), left bumper set, pause
button not pressed. -/
def recoveryCollision : Snapshot Unit :=
  ⟨0, 0, ⟨⟨true, false⟩, ⟨false⟩⟩, (), false⟩

/-- Snapshots with no bumper set and the button not pressed that take the
statics after recoveryCollision through every leg up to the final right turn. -/
def recoveryLegs : List (Snapshot Unit) :=
  [⟨-50, 0, ⟨⟨false, false⟩, ⟨false⟩⟩, (), false⟩,
   ⟨-50, 30, ⟨⟨false, false⟩, ⟨false⟩⟩, (), false⟩,
   ⟨450, 30, ⟨⟨false, false⟩, ⟨false⟩⟩, (), false⟩,
   ⟨450, -60, ⟨⟨false, false⟩, ⟨false⟩⟩, (), false⟩,
   ⟨1050, -60, ⟨⟨false, false⟩, ⟨false⟩⟩, (), false⟩,
   ⟨1050, -150, ⟨⟨false, false⟩, ⟨false⟩⟩, (), false⟩,
   ⟨1550, -150, ⟨⟨false, false⟩, ⟨false⟩⟩, (), false⟩]

/-- The snapshot that completes the final right turn after recoveryLegs. -/
def recoveryLast : Snapshot Unit :=
  ⟨1550, 0, ⟨⟨false, false⟩, ⟨false⟩⟩, (), false⟩


/-- An execution from the initial statics with a collision on the return leg of
a recovery: unpause (3 snapshots), a first collision and its recovery up to the
return leg (7 snapshots), then a second collision with passed set, the backing
away and the right turn that follows it (3 snapshots). -/
def returnLegCollision : List (Snapshot Unit) :=
  [⟨0, 0, ⟨⟨false, false⟩, ⟨false⟩⟩, (), false⟩,
   ⟨0, 0, ⟨⟨false, false⟩, ⟨true⟩⟩, (), false⟩,
   ⟨0, 0, ⟨⟨false, false⟩, ⟨false⟩⟩, (), false⟩,
   ⟨0, 0, ⟨⟨true, false⟩, ⟨false⟩⟩, (), false⟩,
   ⟨-50, 0, ⟨⟨false, false⟩, ⟨false⟩⟩, (), false⟩,
   ⟨-50, 30, ⟨⟨false, false⟩, ⟨false⟩⟩, (), false⟩,
   ⟨450, 30, ⟨⟨false, false⟩, ⟨false⟩⟩, (), false⟩,
   ⟨450, -60, ⟨⟨false, false⟩, ⟨false⟩⟩, (), false⟩,
   ⟨1050, -60, ⟨⟨false, false⟩, ⟨false⟩⟩, (), false⟩,
   ⟨1050, -150, ⟨⟨false, false⟩, ⟨false⟩⟩, (), false⟩,
   ⟨1100, -150, ⟨⟨true, false⟩, ⟨false⟩⟩, (), false⟩,
   ⟨1050, -150, ⟨⟨false, false⟩, ⟨false⟩⟩, (), false⟩,
   ⟨1050, -120, ⟨⟨false, false⟩, ⟨false⟩⟩, (), false⟩]


/-- Three snapshots that take the initial statics to DRIVE: one evaluation, then
the pause button pressed and released. -/
def unpause : List (Snapshot Unit) :=
  [⟨0, 0, ⟨⟨false, false⟩, ⟨false⟩⟩, (), false⟩,
   ⟨0, 0, ⟨⟨false, false⟩, ⟨true⟩⟩, (), false⟩,
   ⟨0, 0, ⟨⟨false, false⟩, ⟨false⟩⟩, (), false⟩]


/-! ## Basic facts -/

theorem abs_eq (x : Int) : abs x = |x| := by
  unfold abs
  split
  · rename_i h
    exact (abs_of_neg h).symm
  · rename_i h
    exact (abs_of_nonneg (not_lt.mp h)).symm

theorem run_nil {A : Type} (s : Statics) : run s ([] : List (Snapshot A)) = s := rfl

theorem run_cons {A : Type} (s : Statics) (x : Snapshot A) (xs : List (Snapshot A)) :
    run s (x :: xs) = run (step s x) xs := rfl

theorem run_append {A : Type} (s : Statics) (xs ys : List (Snapshot A)) :
    run s (xs ++ ys) = run (run s xs) ys := by
  simp [run, List.foldl_append]

/-- A run over snapshots that each leave the statics `s` alone ends in `s`. -/
theorem run_eq_self {A : Type} (s : Statics) (xs : List (Snapshot A))
    (h : ∀ y ∈ xs, step s y = s) : run s xs = s := by
  induction xs with
  | nil => rfl
  | cons x xs ih =>
    rw [run_cons, h x (List.mem_cons_self x xs)]
    exact ih (fun y hy => h y (List.mem_cons_of_mem x hy))

/-- C1 (pause precedence): from a run-region state, when the pause button is
pressed, one evaluation gives state PAUSE_WAIT_BUTTON_RELEASE and stores the
state it left in unpausedState, whatever the bumpers, the odometry and the
maneuver memory are. -/
theorem pause_precedence {A : Type} (s : Statics) (netDistance netAngle : Int)
    (sensors : irobotSensorGroup6_t) (accel : A) (isSimulator : Bool)
    (hrun : runRegion s.state) (hplay : sensors.buttons.play = true) :
    (irobotNavigationStatechart netDistance netAngle sensors accel isSimulator s).1.state
        = PAUSE_WAIT_BUTTON_RELEASE
      ∧ (irobotNavigationStatechart netDistance netAngle sensors accel isSimulator s).1.unpausedState
        = s.state := by
  rcases hrun with h | h | h | h | h <;>
    simp [irobotNavigationStatechart, transition, h, hplay]

theorem pause_precedence_witness :
    runRegion ({ Statics.init with state := BACK }).state
      ∧ (irobotNavigationStatechart 7 (-3) ⟨⟨true, true⟩, ⟨true⟩⟩ () false
          { Statics.init with state := BACK }).1.state = PAUSE_WAIT_BUTTON_RELEASE
      ∧ (irobotNavigationStatechart 7 (-3) ⟨⟨true, true⟩, ⟨true⟩⟩ () false
          { Statics.init with state := BACK }).1.unpausedState = BACK :=
  ⟨by decide, pause_precedence { Statics.init with state := BACK } 7 (-3)
    ⟨⟨true, true⟩, ⟨true⟩⟩ () false (by decide) rfl⟩

/-- C2 (pause/resume round trip): from a run-region state, four consecutive
evaluations with the pause button pressed, released, pressed, released (the
other inputs arbitrary in each) end in the state they started from, with
unpausedState equal to it and the ten other memory fields as before. -/
theorem pause_resume_round_trip {A : Type} (s : Statics) (x1 x2 x3 x4 : Snapshot A)
    (hrun : runRegion s.state)
    (h1 : x1.sensors.buttons.play = true) (h2 : x2.sensors.buttons.play = false)
    (h3 : x3.sensors.buttons.play = true) (h4 : x4.sensors.buttons.play = false) :
    (run s [x1, x2, x3, x4]).state = s.state
      ∧ (run s [x1, x2, x3, x4]).unpausedState = s.state
      ∧ sameMemory s (run s [x1, x2, x3, x4]) := by
  rcases hrun with h | h | h | h | h <;>
    simp [run, step, irobotNavigationStatechart, transition, sameMemory, h, h1, h2, h3, h4]

theorem pause_resume_round_trip_witness :
    runRegion ({ Statics.init with state := TURNLEFT, bump := true, angle := 30 }).state
      ∧ (run { Statics.init with state := TURNLEFT, bump := true, angle := 30 }
          [(⟨0, 0, ⟨⟨true, false⟩, ⟨true⟩⟩, (), false⟩ : Snapshot Unit),
           ⟨5, 1, ⟨⟨false, false⟩, ⟨false⟩⟩, (), false⟩,
           ⟨9, 2, ⟨⟨false, true⟩, ⟨true⟩⟩, (), false⟩,
           ⟨700, 95, ⟨⟨true, true⟩, ⟨false⟩⟩, (), false⟩]).state = TURNLEFT :=
  ⟨by decide,
    (pause_resume_round_trip { Statics.init with state := TURNLEFT, bump := true, angle := 30 }
      (⟨0, 0, ⟨⟨true, false⟩, ⟨true⟩⟩, (), false⟩ : Snapshot Unit)
      ⟨5, 1, ⟨⟨false, false⟩, ⟨false⟩⟩, (), false⟩
      ⟨9, 2, ⟨⟨false, true⟩, ⟨true⟩⟩, (), false⟩
      ⟨700, 95, ⟨⟨true, true⟩, ⟨false⟩⟩, (), false⟩
      (by decide) rfl rfl rfl rfl).1⟩

/-! ## Output mapping -/

/-- C3 (output totality): the wheel speeds written by one evaluation are
determined by the state the evaluation ends in: (left, right) is (150, 150) in
DRIVE, (100, -100) in TURNRIGHT, (-100, 100) in TURNLEFT, (-100, -100) in BACK and
(0, 0) in INITIAL, the three pause states and STOP. -/
theorem output_totality {A : Type} (s : Statics) (netDistance netAngle : Int)
    (sensors : irobotSensorGroup6_t) (accel : A) (isSimulator : Bool) :
    ((irobotNavigationStatechart netDistance netAngle sensors accel isSimulator s).2.leftWheelSpeed,
      (irobotNavigationStatechart netDistance netAngle sensors accel isSimulator s).2.rightWheelSpeed)
      = match (irobotNavigationStatechart netDistance netAngle sensors accel isSimulator s).1.state with
        | DRIVE => (150, 150)
        | TURNRIGHT => (100, -100)
        | TURNLEFT => (-100, 100)
        | BACK => (-100, -100)
        | INITIAL => (0, 0)
        | PAUSE_WAIT_BUTTON_RELEASE => (0, 0)
        | UNPAUSE_WAIT_BUTTON_PRESS => (0, 0)
        | UNPAUSE_WAIT_BUTTON_RELEASE => (0, 0)
        | STOP => (0, 0) := by
  simp only [irobotNavigationStatechart]
  cases (transition netDistance netAngle sensors isSimulator s).state <;> rfl

/-! ## The turns -/

/-- A button-free evaluation from a run-region state either changes nothing, or
changes the state and sets both references to the current odometry. -/
theorem step_run_region {A : Type} (s : Statics) (x : Snapshot A)
    (hrun : runRegion s.state) (hplay : x.sensors.buttons.play = false) :
    step s x = s
      ∨ ((step s x).state ≠ s.state
        ∧ (step s x).distanceAtManeuverStart = x.netDistance
        ∧ (step s x).angleAtManeuverStart = x.netAngle) := by
  rcases hrun with h | h | h | h | h
  · simp [step, irobotNavigationStatechart, transition, h, hplay]
    split_ifs <;> simp_all
  · simp [step, irobotNavigationStatechart, transition, h, hplay]
    split_ifs <;> simp_all
  · simp [step, irobotNavigationStatechart, transition, h, hplay]
    split_ifs <;> simp_all
  · simp [step, irobotNavigationStatechart, transition, h, hplay]
    split_ifs <;> simp_all
  · simp [step, irobotNavigationStatechart, transition, h, hplay]

/-- C12 (reference refresh on every run-region transition): from a run-region
state with the pause button not pressed, an evaluation that changes the state
leaves both references at the current odometry, and one that does not change the
state leaves both references as they were. -/
theorem reference_refresh {A : Type} (s : Statics) (x : Snapshot A)
    (hrun : runRegion s.state) (hplay : x.sensors.buttons.play = false) :
    ((step s x).state ≠ s.state →
        (step s x).distanceAtManeuverStart = x.netDistance
          ∧ (step s x).angleAtManeuverStart = x.netAngle)
      ∧ ((step s x).state = s.state →
        (step s x).distanceAtManeuverStart = s.distanceAtManeuverStart
          ∧ (step s x).angleAtManeuverStart = s.angleAtManeuverStart) := by
  rcases step_run_region s x hrun hplay with h | ⟨hne, hd, ha⟩
  · rw [h]
    exact ⟨fun hne => absurd rfl hne, fun _ => ⟨rfl, rfl⟩⟩
  · exact ⟨fun _ => ⟨hd, ha⟩, fun heq => absurd heq hne⟩

theorem reference_refresh_witness :
    (step { Statics.init with state := BACK, bump := true, rightTurnAngle := 30, angle := 30 }
        (⟨-50, 2, ⟨⟨false, false⟩, ⟨false⟩⟩, (), false⟩ : Snapshot Unit)).distanceAtManeuverStart
        = -50
      ∧ (step { Statics.init with state := BACK, bump := true, rightTurnAngle := 30, angle := 30 }
        (⟨-50, 2, ⟨⟨false, false⟩, ⟨false⟩⟩, (), false⟩ : Snapshot Unit)).angleAtManeuverStart
        = 2 :=
  (reference_refresh
    { Statics.init with state := BACK, bump := true, rightTurnAngle := 30, angle := 30 }
    (⟨-50, 2, ⟨⟨false, false⟩, ⟨false⟩⟩, (), false⟩ : Snapshot Unit)
    (by decide) rfl).1 (by decide)

/-- C13 (pause-region frame): when the pause-region code runs, that is when the
state is INITIAL or one of the three pause states or the pause button is
pressed, one evaluation leaves the ten memory fields other than unpausedState
unchanged whatever the bumpers and the odometry are, and it changes
unpausedState only when the state it started in is a run-region state. -/
theorem pause_region_frame {A : Type} (s : Statics) (x : Snapshot A)
    (hpause : s.state = INITIAL ∨ s.state = PAUSE_WAIT_BUTTON_RELEASE
      ∨ s.state = UNPAUSE_WAIT_BUTTON_PRESS ∨ s.state = UNPAUSE_WAIT_BUTTON_RELEASE
      ∨ x.sensors.buttons.play = true) :
    sameMemory s (step s x)
      ∧ ((step s x).unpausedState ≠ s.unpausedState → runRegion s.state) := by
  have hcond : (s.state = INITIAL ∨ s.state = PAUSE_WAIT_BUTTON_RELEASE
      ∨ s.state = UNPAUSE_WAIT_BUTTON_PRESS ∨ s.state = UNPAUSE_WAIT_BUTTON_RELEASE
      ∨ x.sensors.buttons.play = true) = True := eq_true hpause
  simp only [step, irobotNavigationStatechart, transition, hcond, if_true]
  cases hs : s.state <;> cases hp : x.sensors.buttons.play <;>
    simp [sameMemory, runRegion, hs]

theorem pause_region_frame_witness :
    sameMemory
      { Statics.init with state := TURNLEFT, bump := true, distance := 500, angle := -60 }
      (step { Statics.init with state := TURNLEFT, bump := true, distance := 500, angle := -60 }
        (⟨9000, 400, ⟨⟨true, true⟩, ⟨true⟩⟩, (), true⟩ : Snapshot Unit)) :=
  (pause_region_frame
    { Statics.init with state := TURNLEFT, bump := true, distance := 500, angle := -60 }
    (⟨9000, 400, ⟨⟨true, true⟩, ⟨true⟩⟩, (), true⟩ : Snapshot Unit)
    (Or.inr (Or.inr (Or.inr (Or.inr rfl))))).1

/-- C14 (independence from the reserved inputs): two evaluations from the same
statics on the same odometry and sensors return the same statics and the same
wheel speeds whatever the two accelerometer readings and the two simulator flags
are, the INITIAL state included. -/
theorem reserved_inputs_independence {A B : Type} (s : Statics) (netDistance netAngle : Int)
    (sensors : irobotSensorGroup6_t) (accel : A) (accel2 : B) (isSimulator isSimulator2 : Bool) :
    irobotNavigationStatechart netDistance netAngle sensors accel isSimulator s
      = irobotNavigationStatechart netDistance netAngle sensors accel2 isSimulator2 s := by
  have h : transition netDistance netAngle sensors isSimulator s
      = transition netDistance netAngle sensors isSimulator2 s := by
    simp only [transition, ite_self]
  simp only [irobotNavigationStatechart, h]

/-! ## Invariants of the executions from the initial statics -/

/-- A property of the statics that every evaluation preserves holds along every
run. -/
theorem run_invariant {A : Type} (P : Statics → Prop)
    (hstep : ∀ (s : Statics) (x : Snapshot A), P s → P (step s x))
    (s : Statics) (xs : List (Snapshot A)) (h : P s) : P (run s xs) := by
  induction xs generalizing s with
  | nil => exact h
  | cons x xs ih => exact ih (step s x) (hstep s x h)

/-- One evaluation keeps the state away from STOP and unpausedState among DRIVE,
TURNLEFT, TURNRIGHT and BACK. -/
theorem step_never_stop {A : Type} (s : Statics) (x : Snapshot A)
    (h : s.state ≠ STOP
      ∧ (s.unpausedState = DRIVE ∨ s.unpausedState = TURNLEFT
        ∨ s.unpausedState = TURNRIGHT ∨ s.unpausedState = BACK)) :
    (step s x).state ≠ STOP
      ∧ ((step s x).unpausedState = DRIVE ∨ (step s x).unpausedState = TURNLEFT
        ∨ (step s x).unpausedState = TURNRIGHT ∨ (step s x).unpausedState = BACK) := by
  obtain ⟨h1, h2⟩ := h
  cases hs : s.state <;> cases hp : x.sensors.buttons.play <;>
    simp [step, irobotNavigationStatechart, transition, hs, hp] <;>
    (try split_ifs) <;>
    first
      | (simp_all; done)
      | (rcases h2 with h | h | h | h <;> simp [h])

/-- C15 (STOP is unreachable): after any finite sequence of evaluations from the
initial statics the state is not STOP, and unpausedState is one of DRIVE,
TURNLEFT, TURNRIGHT and BACK, so a resume lands neither in STOP nor in a pause
state. -/
theorem stop_unreachable {A : Type} (xs : List (Snapshot A)) :
    (run Statics.init xs).state ≠ STOP
      ∧ ((run Statics.init xs).unpausedState = DRIVE
        ∨ (run Statics.init xs).unpausedState = TURNLEFT
        ∨ (run Statics.init xs).unpausedState = TURNRIGHT
        ∨ (run Statics.init xs).unpausedState = BACK) :=
  run_invariant
    (fun s => s.state ≠ STOP
      ∧ (s.unpausedState = DRIVE ∨ s.unpausedState = TURNLEFT
        ∨ s.unpausedState = TURNRIGHT ∨ s.unpausedState = BACK))
    step_never_stop Statics.init xs ⟨by decide, Or.inl rfl⟩

theorem abs_ge_zero (x : Int) : 0 ≤ abs x := by
  unfold abs
  split <;> omega

/-- One evaluation preserves the staging invariant. -/
theorem step_staged {A : Type} (s : Statics) (x : Snapshot A) (h : staged s) :
    staged (step s x) := by
  obtain ⟨h1, h2, h3, h4, h5⟩ := h
  have hab := abs_ge_zero (x.netDistance - s.distanceAtManeuverStart)
  cases hs : s.state <;> cases hp : x.sensors.buttons.play <;>
    simp [step, irobotNavigationStatechart, transition, staged, resumeState, hs, hp] at h4 h5 ⊢ <;>
    (try split_ifs) <;>
    simp_all <;> (try omega) <;>
    first
      | (cases hq : s.passed <;> cases hd : s.driveForAdjustment <;> simp_all; omega)
      | (cases hu : s.unpausedState <;> simp_all)

/-- An evaluation goes from DRIVE to TURNRIGHT only with passed set (rule 5). -/
theorem drive_to_turnright_passed {A : Type} (s : Statics) (x : Snapshot A)
    (hs : s.state = DRIVE) (ht : (step s x).state = TURNRIGHT) : s.passed = true := by
  cases hp : x.sensors.buttons.play <;>
    simp [step, irobotNavigationStatechart, transition, hs, hp] at ht
  split_ifs at ht <;> simp_all

/-- C20 (staging of the recovery flags): in every statics reached from the
initial ones, timeToAdjustAngle set implies passed set, and passed set implies
distance at least 500 (integers unbounded); so an evaluation that takes rule 5
(from DRIVE to TURNRIGHT) finds distance at least 500, never zero. -/
theorem recovery_flags_staging {A : Type} (xs : List (Snapshot A)) :
    ((run Statics.init xs).timeToAdjustAngle = true → (run Statics.init xs).passed = true)
      ∧ ((run Statics.init xs).passed = true → (run Statics.init xs).distance ≥ 500)
      ∧ (∀ x : Snapshot A, (run Statics.init xs).state = DRIVE →
          (step (run Statics.init xs) x).state = TURNRIGHT →
          (run Statics.init xs).distance ≥ 500) := by
  have h : staged (run Statics.init xs) :=
    run_invariant staged step_staged Statics.init xs (by simp [staged, Statics.init])
  exact ⟨h.1, h.2.1, fun x hs ht => h.2.1 (drive_to_turnright_passed _ x hs ht)⟩


theorem recovery_flags_staging_witness :
    (run Statics.init (unpause ++ recoveryCollision :: recoveryLegs)).distance ≥ 500 :=
  (recovery_flags_staging (unpause ++ recoveryCollision :: recoveryLegs)).2.1 (by decide)

/-! ## Start-up -/

theorem speeds_eq {A : Type} (s : Statics) (x : Snapshot A) :
    speeds s x = stateActions (step s x).state := rfl

/-- With the button not pressed, an evaluation from the initial statics, or from
the initial statics moved to UNPAUSE_WAIT_BUTTON_PRESS, gives the latter. -/
theorem step_waiting {A : Type} (s : Statics) (x : Snapshot A)
    (hs : s = Statics.init ∨ s = { Statics.init with state := UNPAUSE_WAIT_BUTTON_PRESS })
    (hp : x.sensors.buttons.play = false) :
    step s x = { Statics.init with state := UNPAUSE_WAIT_BUTTON_PRESS } := by
  rcases hs with h | h <;>
    simp [h, step, irobotNavigationStatechart, transition, Statics.init, hp]

theorem run_waiting {A : Type} (s : Statics) (xs : List (Snapshot A))
    (hs : s = Statics.init ∨ s = { Statics.init with state := UNPAUSE_WAIT_BUTTON_PRESS })
    (hp : ∀ y ∈ xs, y.sensors.buttons.play = false) :
    run s xs = Statics.init ∨ run s xs = { Statics.init with state := UNPAUSE_WAIT_BUTTON_PRESS } := by
  induction xs generalizing s with
  | nil => exact hs
  | cons x xs ih =>
    rw [run_cons]
    exact ih _ (Or.inr (step_waiting s x hs (hp x (List.mem_cons_self x xs))))
      (fun y hy => hp y (List.mem_cons_of_mem x hy))

/-- While the button stays pressed, UNPAUSE_WAIT_BUTTON_RELEASE is kept. -/
theorem run_held {A : Type} (s : Statics) (xs : List (Snapshot A))
    (hs : s.state = UNPAUSE_WAIT_BUTTON_RELEASE)
    (hp : ∀ y ∈ xs, y.sensors.buttons.play = true) :
    (run s xs).state = UNPAUSE_WAIT_BUTTON_RELEASE := by
  rw [run_eq_self s xs (fun y hy => ?_)]
  · exact hs
  · simp [step, irobotNavigationStatechart, transition, hs, hp y hy]

/-- From INITIAL or UNPAUSE_WAIT_BUTTON_PRESS, a run in which no press is followed
by a release ends in INITIAL or in one of the two unpause states. -/
theorem run_no_release {A : Type} (s : Statics) (xs : List (Snapshot A))
    (hs : s.state = INITIAL ∨ s.state = UNPAUSE_WAIT_BUTTON_PRESS)
    (hp : xs.Pairwise (fun y z => y.sensors.buttons.play = true → z.sensors.buttons.play = true)) :
    (run s xs).state = INITIAL ∨ (run s xs).state = UNPAUSE_WAIT_BUTTON_PRESS
      ∨ (run s xs).state = UNPAUSE_WAIT_BUTTON_RELEASE := by
  induction xs generalizing s with
  | nil => rcases hs with h | h
           · exact Or.inl h
           · exact Or.inr (Or.inl h)
  | cons x xs ih =>
    rw [run_cons]
    obtain ⟨hx, hxs⟩ := List.pairwise_cons.mp hp
    rcases hs with h | h
    · refine ih _ (Or.inr ?_) hxs
      simp [step, irobotNavigationStatechart, transition, h]
    · cases hpx : x.sensors.buttons.play
      · refine ih _ (Or.inr ?_) hxs
        simp [step, irobotNavigationStatechart, transition, h, hpx]
      · refine Or.inr (Or.inr (run_held _ xs ?_ (fun y hy => hx y hy hpx)))
        simp [step, irobotNavigationStatechart, transition, h, hpx]

/-- C16 (start-up stays halted until the operator acts): from the initial
statics, in a sequence where the pause button is never pressed every evaluation
writes speeds (0, 0) and leaves the initial statics with the state moved to
UNPAUSE_WAIT_BUTTON_PRESS, whatever the bumpers and the odometry are; and in any
sequence in which no evaluation with the button pressed is followed by one with
it released, every evaluation writes speeds (0, 0). -/
theorem startup_stays_halted {A : Type} (pre : List (Snapshot A)) (x : Snapshot A) :
    ((∀ y ∈ pre ++ [x], y.sensors.buttons.play = false) →
        speeds (run Statics.init pre) x = { leftWheelSpeed := 0, rightWheelSpeed := 0 }
          ∧ run Statics.init (pre ++ [x])
            = { Statics.init with state := UNPAUSE_WAIT_BUTTON_PRESS })
      ∧ ((pre ++ [x]).Pairwise
          (fun y z => y.sensors.buttons.play = true → z.sensors.buttons.play = true) →
        speeds (run Statics.init pre) x = { leftWheelSpeed := 0, rightWheelSpeed := 0 }) := by
  refine ⟨fun h => ?_, fun h => ?_⟩
  · have hpre := run_waiting Statics.init pre (Or.inl rfl)
      (fun y hy => h y (List.mem_append_left _ hy))
    have hx := step_waiting (run Statics.init pre) x hpre
      (h x (List.mem_append_right _ (List.mem_singleton_self x)))
    refine ⟨?_, ?_⟩
    · rw [speeds_eq, hx]
      rfl
    · rw [run_append, run_cons, run_nil, hx]
  · have hst := run_no_release Statics.init (pre ++ [x]) (Or.inl rfl) h
    rw [run_append, run_cons, run_nil] at hst
    rw [speeds_eq]
    rcases hst with h1 | h1 | h1 <;> rw [h1] <;> rfl

theorem startup_stays_halted_witness :
    speeds (run Statics.init
        [(⟨0, 0, ⟨⟨true, false⟩, ⟨false⟩⟩, (), false⟩ : Snapshot Unit),
         ⟨700, 95, ⟨⟨false, true⟩, ⟨false⟩⟩, (), true⟩])
        ⟨-900, 400, ⟨⟨true, true⟩, ⟨false⟩⟩, (), false⟩
      = { leftWheelSpeed := 0, rightWheelSpeed := 0 } :=
  ((startup_stays_halted
      [(⟨0, 0, ⟨⟨true, false⟩, ⟨false⟩⟩, (), false⟩ : Snapshot Unit),
       ⟨700, 95, ⟨⟨false, true⟩, ⟨false⟩⟩, (), true⟩]
      ⟨-900, 400, ⟨⟨true, true⟩, ⟨false⟩⟩, (), false⟩).1 (by decide)).1


/-! ## The recovery protocol -/

/-- A snapshot with no bumper set and the button not pressed moves the statics
of a recovery leg to the next leg or leaves them alone. -/
theorem phase_step {A : Type} (s : Statics) (x : Snapshot A)
    (hq : x.sensors = ⟨⟨false, false⟩, ⟨false⟩⟩) (h1 : 1 ≤ phase s) (h8 : phase s ≤ 8) :
    step s x = s ∨ phase (step s x) = phase s + 1 := by
  have hab : ∀ y : Int, 600 ≤ abs y → 500 ≤ abs y := fun y h => by omega
  obtain ⟨st, u, d0, a0, b, p, f, t, r, l, di, an⟩ := s
  cases st <;> cases p <;> cases b <;> simp [phase] at h1 h8 ⊢ <;>
    simp [step, irobotNavigationStatechart, transition, hq, idleMemory] <;>
    (try split_ifs) <;>
    first
      | (simp_all; done)
      | (split_ifs at h1 h8 <;> omega)

/-- Idle statics in DRIVE are left alone by a snapshot with no bumper set and the
button not pressed. -/
theorem phase_idle_step {A : Type} (s : Statics) (x : Snapshot A)
    (hq : x.sensors = ⟨⟨false, false⟩, ⟨false⟩⟩) (h9 : phase s = 9) : step s x = s := by
  obtain ⟨st, u, d0, a0, b, p, f, t, r, l, di, an⟩ := s
  cases st <;> cases p <;> cases b <;> simp [phase] at h9 <;>
    try (split_ifs at h9 <;> omega)
  simp [idleMemory] at h9
  simp [step, irobotNavigationStatechart, transition, hq, h9]

/-- In the legs 1 to 8 the recovery memory is not idle. -/
theorem phase_not_idle (s : Statics) (h1 : 1 ≤ phase s) (h8 : phase s ≤ 8) :
    ¬ idleMemory s := by
  obtain ⟨st, u, d0, a0, b, p, f, t, r, l, di, an⟩ := s
  cases st <;> cases p <;> cases b <;> simp [phase] at h1 h8 <;>
    first
      | (simp [idleMemory]; done)
      | (split_ifs at h1 h8 <;> omega)

/-- In the legs 1 to 8 the state is the one that the protocol lists for the leg. -/
theorem phase_state (s : Statics) (h1 : 1 ≤ phase s) (h8 : phase s ≤ 8) :
    protocol.drop (phase s - 1) = s.state :: protocol.drop (phase s) := by
  obtain ⟨st, u, d0, a0, b, p, f, t, r, l, di, an⟩ := s
  cases st <;> cases p <;> cases b <;> simp [phase] at h1 h8 ⊢ <;>
    first
      | (simp [protocol]; done)
      | (split_ifs at h1 h8 ⊢ <;> first | omega | simp [protocol])

/-- Idle again means that the recovery memory is at its defaults. -/
theorem phase_nine_idle (s : Statics) (h9 : phase s = 9) : idleMemory s := by
  obtain ⟨st, u, d0, a0, b, p, f, t, r, l, di, an⟩ := s
  cases st <;> cases p <;> cases b <;> simp [phase] at h9 <;>
    try (split_ifs at h9 <;> omega)
  exact h9

theorem visited_cons {A : Type} (s : Statics) (x : Snapshot A) (xs : List (Snapshot A)) :
    visited s (x :: xs) = (step s x).state :: visited (step s x) xs := rfl

theorem collapse_repeat (a : robotState_t) (l : List robotState_t) :
    collapse (a :: a :: l) = collapse (a :: l) := by
  simp [collapse]

theorem collapse_change (a b : robotState_t) (l : List robotState_t) (h : a ≠ b) :
    collapse (a :: b :: l) = a :: collapse (b :: l) := by
  simp [collapse, h]

/-- Over snapshots with no bumper set and the button not pressed, the leg stays
between 1 and 9. -/
theorem phase_run_range {A : Type} (xs : List (Snapshot A)) (s : Statics)
    (h1 : 1 ≤ phase s) (h9 : phase s ≤ 9)
    (hq : ∀ y ∈ xs, y.sensors = ⟨⟨false, false⟩, ⟨false⟩⟩) :
    1 ≤ phase (run s xs) ∧ phase (run s xs) ≤ 9 := by
  induction xs generalizing s with
  | nil => exact ⟨h1, h9⟩
  | cons x xs ih =>
    have hx := hq x (List.mem_cons_self x xs)
    have hxs : ∀ y ∈ xs, y.sensors = ⟨⟨false, false⟩, ⟨false⟩⟩ :=
      fun y hy => hq y (List.mem_cons_of_mem x hy)
    rw [run_cons]
    by_cases h : phase s = 9
    · rw [phase_idle_step s x hx h]
      exact ih s h1 h9 hxs
    · rcases phase_step s x hx h1 (by omega) with hstay | hadv
      · rw [hstay]
        exact ih s h1 h9 hxs
      · exact ih (step s x) (by omega) (by omega) hxs

/-- From a leg between 1 and 8, over snapshots with no bumper set and the button
not pressed that end in leg 8, the collapsed sequence of the states is the rest
of the protocol. -/
theorem collapse_visited {A : Type} (xs : List (Snapshot A)) (s : Statics)
    (h1 : 1 ≤ phase s) (h8 : phase s ≤ 8)
    (hq : ∀ y ∈ xs, y.sensors = ⟨⟨false, false⟩, ⟨false⟩⟩)
    (hend : phase (run s xs) = 8) :
    collapse (s.state :: visited s xs) = protocol.drop (phase s - 1) := by
  induction xs generalizing s with
  | nil =>
    rw [run_nil] at hend
    have hst := phase_state s h1 h8
    rw [hend] at hst ⊢
    simp [protocol] at hst ⊢
    simp [visited, collapse, ← hst]
  | cons x xs ih =>
    have hx := hq x (List.mem_cons_self x xs)
    have hxs : ∀ y ∈ xs, y.sensors = ⟨⟨false, false⟩, ⟨false⟩⟩ :=
      fun y hy => hq y (List.mem_cons_of_mem x hy)
    rw [run_cons] at hend
    rcases phase_step s x hx h1 h8 with hstay | hadv
    · rw [visited_cons, hstay, collapse_repeat]
      rw [hstay] at hend
      exact ih s h1 h8 hxs hend
    · by_cases h88 : phase s = 8
      · exfalso
        have h9 : phase (step s x) = 9 := by omega
        rw [run_eq_self (step s x) xs (fun y hy => phase_idle_step _ y (hxs y hy) h9)] at hend
        omega
      · have h1n : 1 ≤ phase (step s x) := by omega
        have h8n : phase (step s x) ≤ 8 := by omega
        have hrec := ih (step s x) h1n h8n hxs hend
        have hs1 := phase_state s h1 h8
        have hs2 := phase_state (step s x) h1n h8n
        rw [hadv] at hrec hs2
        simp only [Nat.add_sub_cancel] at hrec hs2
        have hne : s.state ≠ (step s x).state := by
          generalize phase s = k at h1 h8 h88 hs1 hs2
          interval_cases k <;> simp [protocol] at hs1 hs2 <;>
            simp [← hs1, ← hs2]
        rw [visited_cons, hs1, collapse_change _ _ _ hne, hrec]

/-- After a collision from the statics of driveStart the recovery is in leg 1. -/
theorem phase_after_collision {A : Type} (x0 : Snapshot A)
    (hplay : x0.sensors.buttons.play = false)
    (hbump : x0.sensors.bumps_wheelDrops.bumpLeft = true
      ∨ x0.sensors.bumps_wheelDrops.bumpRight = true) :
    phase (step driveStart x0) = 1 := by
  cases hl : x0.sensors.bumps_wheelDrops.bumpLeft <;>
    cases hr : x0.sensors.bumps_wheelDrops.bumpRight <;>
    simp [step, irobotNavigationStatechart, transition, driveStart, Statics.init, hplay, hl, hr,
      phase] at hbump ⊢

/-- C17, as the code has it (recovery protocol sequence): from DRIVE with default
memory, after an evaluation with a bumper set, over any continuation with no
bumper set and the button never pressed that runs until the evaluation that
resets the recovery memory to its idle defaults, the states visited from the
collision up to that evaluation, consecutive repeats collapsed, are BACK,
TURNRIGHT, DRIVE, TURNLEFT, DRIVE, TURNLEFT, DRIVE, TURNRIGHT: there are two left
turns, one by rule 4 and one by rule 6. -/
theorem recovery_protocol_sequence {A : Type} (x0 : Snapshot A) (xs : List (Snapshot A))
    (x : Snapshot A)
    (hplay : x0.sensors.buttons.play = false)
    (hbump : x0.sensors.bumps_wheelDrops.bumpLeft = true
      ∨ x0.sensors.bumps_wheelDrops.bumpRight = true)
    (hq : ∀ y ∈ xs ++ [x], y.sensors = ⟨⟨false, false⟩, ⟨false⟩⟩)
    (hnot : ¬ idleMemory (run driveStart (x0 :: xs)))
    (hreset : idleMemory (run driveStart (x0 :: (xs ++ [x])))) :
    collapse (visited driveStart (x0 :: xs))
      = [BACK, TURNRIGHT, DRIVE, TURNLEFT, DRIVE, TURNLEFT, DRIVE, TURNRIGHT] := by
  have hp1 := phase_after_collision x0 hplay hbump
  have hxs : ∀ y ∈ xs, y.sensors = ⟨⟨false, false⟩, ⟨false⟩⟩ :=
    fun y hy => hq y (List.mem_append_left _ hy)
  have hx := hq x (List.mem_append_right _ (List.mem_singleton_self x))
  rw [run_cons] at hnot
  rw [run_cons, run_append, run_cons, run_nil] at hreset
  obtain ⟨hr1, hr9⟩ := phase_run_range xs (step driveStart x0) (by omega) (by omega) hxs
  have hne9 : phase (run (step driveStart x0) xs) ≠ 9 :=
    fun h9 => hnot (phase_nine_idle _ h9)
  have hend : phase (run (step driveStart x0) xs) = 8 := by
    rcases phase_step (run (step driveStart x0) xs) x hx hr1 (by omega) with hstay | hadv
    · rw [hstay] at hreset
      exact absurd hreset hnot
    · by_contra h8
      exact phase_not_idle _ (by omega) (by omega) hreset
  have h := collapse_visited xs (step driveStart x0) (by omega) (by omega) hxs hend
  rw [visited_cons, h, hp1]
  rfl

theorem recovery_protocol_sequence_witness :
    collapse (visited driveStart (recoveryCollision :: recoveryLegs))
      = [BACK, TURNRIGHT, DRIVE, TURNLEFT, DRIVE, TURNLEFT, DRIVE, TURNRIGHT] :=
  recovery_protocol_sequence recoveryCollision recoveryLegs recoveryLast
    rfl (Or.inl rfl) (by decide) (by decide) (by decide)

/-- C17 as stated fails: after recoveryCollision, the button-free and bumper-free
snapshots recoveryLegs followed by recoveryLast run until the recovery memory is
reset, and the collapsed sequence of the states visited before the reset has a
second TURNLEFT and DRIVE that the claimed sequence lacks. -/
theorem recovery_protocol_sequence_counterexample :
    recoveryCollision.sensors.bumps_wheelDrops.bumpLeft = true
      ∧ recoveryCollision.sensors.buttons.play = false
      ∧ (∀ y ∈ recoveryLegs ++ [recoveryLast], y.sensors = ⟨⟨false, false⟩, ⟨false⟩⟩)
      ∧ ¬ idleMemory (run driveStart (recoveryCollision :: recoveryLegs))
      ∧ idleMemory (run driveStart (recoveryCollision :: (recoveryLegs ++ [recoveryLast])))
      ∧ collapse (visited driveStart (recoveryCollision :: recoveryLegs))
          ≠ [BACK, TURNRIGHT, DRIVE, TURNLEFT, DRIVE, TURNRIGHT] := by
  decide

/-! ## A right turn entered from BACK -/

/-- Between a collision and the next return to DRIVE: while the statics stand
for BACK or TURNRIGHT with bump set, an evaluation either keeps that, with
passed, angle and distance as they were, or it completes the right turn: it
starts in TURNRIGHT and ends in DRIVE, with the recovery memory reset when
passed was set, and with bump kept, driveForAdjustment set and angle and
distance kept when it was not. -/
theorem step_turning {A : Type} (t : Statics) (x : Snapshot A) (b : Bool) (a d : Int)
    (hseg : resumeState t = BACK ∨ resumeState t = TURNRIGHT)
    (hb : t.bump = true) (hp : t.passed = b) (ha : t.angle = a) (hd : t.distance = d) :
    ((resumeState (step t x) = BACK ∨ resumeState (step t x) = TURNRIGHT)
        ∧ (step t x).bump = true ∧ (step t x).passed = b
        ∧ (step t x).angle = a ∧ (step t x).distance = d)
      ∨ (t.state = TURNRIGHT ∧ (step t x).state = DRIVE
        ∧ (b = false → (step t x).bump = true ∧ (step t x).driveForAdjustment = true
            ∧ (step t x).angle = a ∧ (step t x).distance = d)
        ∧ (b = true → idleMemory (step t x))) := by
  cases hs : t.state <;> cases hpl : x.sensors.buttons.play <;>
    simp [resumeState, hs] at hseg <;>
    simp [step, irobotNavigationStatechart, transition, resumeState, idleMemory, hs, hpl] <;>
    (try split_ifs) <;>
    first
      | (simp_all; done)
      | (rcases hseg with h | h <;> simp [h, hb, hp, ha, hd])

/-- Statics that stand for BACK or TURNRIGHT are not in DRIVE. -/
theorem resumeState_not_drive (t : Statics)
    (hseg : resumeState t = BACK ∨ resumeState t = TURNRIGHT) : t.state ≠ DRIVE := by
  intro h
  simp [resumeState, h] at hseg

/-- From statics that stand for BACK or TURNRIGHT with bump set, a run that
reaches DRIVE for the first time at its end completes a right turn as
step_turning describes. -/
theorem run_turning {A : Type} (xs : List (Snapshot A)) (t : Statics) (b : Bool) (a d : Int)
    (hseg : resumeState t = BACK ∨ resumeState t = TURNRIGHT)
    (hb : t.bump = true) (hp : t.passed = b) (ha : t.angle = a) (hd : t.distance = d)
    (hfirst : ∀ k, k < xs.length → (run t (xs.take k)).state ≠ DRIVE)
    (hend : (run t xs).state = DRIVE) :
    (run t xs.dropLast).state = TURNRIGHT
      ∧ (b = false → (run t xs).bump = true ∧ (run t xs).driveForAdjustment = true
          ∧ (run t xs).angle = a ∧ (run t xs).distance = d)
      ∧ (b = true → idleMemory (run t xs)) := by
  induction xs generalizing t with
  | nil => exact absurd hend (resumeState_not_drive t hseg)
  | cons x xs ih =>
    rcases step_turning t x b a d hseg hb hp ha hd with ⟨hseg2, hb2, hp2, ha2, hd2⟩ | hdone
    · cases xs with
      | nil => exact absurd hend (resumeState_not_drive _ hseg2)
      | cons y ys =>
        have hfirst2 : ∀ k, k < (y :: ys).length →
            (run (step t x) ((y :: ys).take k)).state ≠ DRIVE := by
          intro k hk
          have h := hfirst (k + 1) (by simp at hk ⊢; omega)
          rwa [List.take_succ_cons, run_cons] at h
        have h := ih (step t x) hseg2 hb2 hp2 ha2 hd2 hfirst2 hend
        rwa [List.dropLast_cons₂, run_cons]
    · obtain ⟨hst, hdr, hres⟩ := hdone
      cases xs with
      | nil => exact ⟨hst, hres⟩
      | cons y ys =>
        have h := hfirst 1 (by simp)
        simp [run, step] at h hdr
        exact absurd hdr h

/-- The effect of a collision in DRIVE, as a lemma for the sequences below. -/
theorem collision_step {A : Type} (s : Statics) (x : Snapshot A)
    (hstate : s.state = DRIVE) (hplay : x.sensors.buttons.play = false)
    (hbump : x.sensors.bumps_wheelDrops.bumpLeft = true
      ∨ x.sensors.bumps_wheelDrops.bumpRight = true) :
    (step s x).state = BACK
      ∧ (step s x).bump = true
      ∧ (step s x).distance = s.distance
      ∧ (step s x).leftTurnAngle = s.leftTurnAngle
      ∧ (step s x).driveForAdjustment = s.driveForAdjustment
      ∧ (step s x).timeToAdjustAngle = s.timeToAdjustAngle
      ∧ (step s x).passed = s.passed
      ∧ (step s x).unpausedState = s.unpausedState := by
  cases hl : x.sensors.bumps_wheelDrops.bumpLeft <;>
    cases hr : x.sensors.bumps_wheelDrops.bumpRight <;>
    simp [step, irobotNavigationStatechart, transition, hstate, hplay, hl, hr] at hbump ⊢

/-- C18, as the code has it (when the recovery reset happens): take any statics in
DRIVE, an evaluation with a bumper set and the button not pressed, and any
further evaluations that reach DRIVE again for the first time at their end.
Then the collision gives BACK, the last evaluation starts in TURNRIGHT, and it
completes the right turn by the value that passed had at the collision: with
passed clear the result has bump set, driveForAdjustment set and the angle and
distance of the collision kept; with passed set (a collision on the return leg,
after rule 6) the recovery memory is reset to its idle defaults, although the
turn was entered from BACK and not by rule 5. -/
theorem turnright_from_back_completion {A : Type} (s : Statics) (x0 : Snapshot A)
    (xs : List (Snapshot A))
    (hstate : s.state = DRIVE) (hplay : x0.sensors.buttons.play = false)
    (hbump : x0.sensors.bumps_wheelDrops.bumpLeft = true
      ∨ x0.sensors.bumps_wheelDrops.bumpRight = true)
    (hfirst : ∀ k, k < xs.length → (run (step s x0) (xs.take k)).state ≠ DRIVE)
    (hend : (run (step s x0) xs).state = DRIVE) :
    (step s x0).state = BACK
      ∧ (run (step s x0) xs.dropLast).state = TURNRIGHT
      ∧ (s.passed = false →
          (run (step s x0) xs).bump = true
            ∧ (run (step s x0) xs).driveForAdjustment = true
            ∧ (run (step s x0) xs).angle = (step s x0).angle
            ∧ (run (step s x0) xs).distance = (step s x0).distance)
      ∧ (s.passed = true → idleMemory (run (step s x0) xs)) := by
  obtain ⟨hback, hb, _, _, _, _, hp, _⟩ := collision_step s x0 hstate hplay hbump
  have hseg : resumeState (step s x0) = BACK ∨ resumeState (step s x0) = TURNRIGHT := by
    left
    simp [resumeState, hback]
  exact ⟨hback,
    run_turning xs (step s x0) s.passed (step s x0).angle (step s x0).distance
      hseg hb hp rfl rfl hfirst hend⟩

theorem turnright_from_back_completion_witness :
    (run (step driveStart recoveryCollision)
        [⟨-50, 0, ⟨⟨false, false⟩, ⟨false⟩⟩, (), false⟩,
         ⟨-50, 30, ⟨⟨false, false⟩, ⟨false⟩⟩, (), false⟩]).bump = true :=
  ((turnright_from_back_completion driveStart recoveryCollision
      [⟨-50, 0, ⟨⟨false, false⟩, ⟨false⟩⟩, (), false⟩,
       ⟨-50, 30, ⟨⟨false, false⟩, ⟨false⟩⟩, (), false⟩]
      rfl rfl (Or.inl rfl) (by decide) (by decide)).2.2.1 rfl).1

/-- C18 as stated fails: in the execution returnLegCollision from the initial
statics, the state is DRIVE after 10 evaluations, the 11th has the left bumper
set and gives BACK, the 12th gives TURNRIGHT, so this right turn is entered from
BACK after a fresh collision, and the 13th completes it into DRIVE by resetting
the recovery memory: bump and driveForAdjustment are false and distance is 0. -/
theorem turnright_from_back_counterexample :
    (run Statics.init (returnLegCollision.take 10)).state = DRIVE
      ∧ (run Statics.init (returnLegCollision.take 10)).distance = 500
      ∧ (run Statics.init (returnLegCollision.take 11)).state = BACK
      ∧ (run Statics.init (returnLegCollision.take 11)).angle = -120
      ∧ (run Statics.init (returnLegCollision.take 12)).state = TURNRIGHT
      ∧ (run Statics.init returnLegCollision).state = DRIVE
      ∧ idleMemory (run Statics.init returnLegCollision)
      ∧ ¬ ((run Statics.init returnLegCollision).bump = true
          ∧ (run Statics.init returnLegCollision).driveForAdjustment = true
          ∧ (run Statics.init returnLegCollision).angle = -120
          ∧ (run Statics.init returnLegCollision).distance = 500) := by
  decide

/-! ## 32-bit arithmetic -/

theorem wrap32_of_fits (x : Int) (h : fits32 x) : wrap32 x = x := by
  unfold fits32 at h
  unfold wrap32
  omega

/-- On a difference whose absolute value is an `int32_t`, the 32-bit `abs` of the
32-bit difference is the absolute value. -/
theorem abs32_wrap32 (d : Int) (h : |d| ≤ 2147483647) : abs32 (wrap32 d) = |d| := by
  rw [← abs_eq] at h ⊢
  unfold abs at h ⊢
  unfold abs32 wrap32
  split_ifs at h ⊢ <;> omega

/-- The 32-bit `abs` of a 32-bit difference never exceeds the absolute value. -/
theorem abs32_wrap32_le (d : Int) : abs32 (wrap32 d) ≤ |d| := by
  rw [← abs_eq]
  unfold abs abs32 wrap32
  split_ifs <;> omega

theorem abs32_of_gt (x : Int) (h : -2147483648 < x) (h2 : x ≤ 2147483647) :
    abs32 x = |x| := by
  rw [← abs_eq]
  unfold abs abs32 wrap32
  split_ifs <;> omega

theorem run32_nil {A : Type} (s : Statics) : run32 s ([] : List (Snapshot A)) = s := rfl

theorem run32_cons {A : Type} (s : Statics) (x : Snapshot A) (xs : List (Snapshot A)) :
    run32 s (x :: xs) = run32 (step32 s x) xs := rfl

theorem run32_append {A : Type} (s : Statics) (xs ys : List (Snapshot A)) :
    run32 s (xs ++ ys) = run32 (run32 s xs) ys := by
  simp [run32, List.foldl_append]

/-- A 32-bit run over snapshots that each leave the statics `s` alone ends in `s`. -/
theorem run32_eq_self {A : Type} (s : Statics) (xs : List (Snapshot A))
    (h : ∀ y ∈ xs, step32 s y = s) : run32 s xs = s := by
  induction xs with
  | nil => rfl
  | cons x xs ih =>
    rw [run32_cons, h x (List.mem_cons_self x xs)]
    exact ih (fun y hy => h y (List.mem_cons_of_mem x hy))

theorem run32_take_eq_self {A : Type} (s : Statics) (xs : List (Snapshot A))
    (h : ∀ y ∈ xs, step32 s y = s) (k : Nat) : run32 s (xs.take k) = s :=
  run32_eq_self s (xs.take k) (fun y hy => h y (List.mem_of_mem_take hy))

/-- The two embeddings agree on an evaluation in which no intermediate value
leaves the 32-bit range: the two differences from the references and their
absolute values, the three sums and the difference that update angle, the sum
that updates distance, and the absolute value of angle. -/
theorem transition32_eq_transition (netDistance netAngle : Int)
    (sensors : irobotSensorGroup6_t) (isSimulator : Bool) (s : Statics)
    (hd : |netDistance - s.distanceAtManeuverStart| ≤ 2147483647)
    (ha : |netAngle - s.angleAtManeuverStart| ≤ 2147483647)
    (h90 : fits32 (s.angle + 90)) (h30 : fits32 (s.angle + 30))
    (h145 : fits32 (s.angle + 145)) (hl : fits32 (s.angle - s.leftTurnAngle))
    (hsum : fits32 (s.distance + |netDistance - s.distanceAtManeuverStart|))
    (hang : |s.angle| ≤ 2147483647) :
    transition32 netDistance netAngle sensors isSimulator s
      = transition netDistance netAngle sensors isSimulator s := by
  have e1 := abs32_wrap32 _ hd
  have e2 := abs32_wrap32 _ ha
  have e3 : abs32 s.angle = |s.angle| := by
    have := abs_le.mp hang
    exact abs32_of_gt _ (by omega) (by omega)
  unfold transition32 transition
  simp only [e1, e2, e3, abs_eq, wrap32_of_fits _ h90, wrap32_of_fits _ h30,
    wrap32_of_fits _ h145, wrap32_of_fits _ hl, wrap32_of_fits _ hsum]

/-! ## The run region in 32-bit arithmetic -/

/-- C4, as the code has it (collision handling preempts recovery): from DRIVE
with the pause button not pressed and a bumper set, whatever the recovery flags,
distance, angle and odometry are, one evaluation gives BACK with bump set,
rightTurnAngle 90 (both bumpers), 30 (left only) or 145 (right only), both
references set to the current odometry, and passed, driveForAdjustment,
timeToAdjustAngle, leftTurnAngle and distance unchanged; angle becomes the
32-bit sum of angle and that rightTurnAngle, which is the exact sum whenever the
exact sum is an int32. -/
theorem collision_preempts_recovery {A : Type} (s : Statics) (x : Snapshot A)
    (hstate : s.state = DRIVE) (hplay : x.sensors.buttons.play = false)
    (hbump : x.sensors.bumps_wheelDrops.bumpLeft = true
      ∨ x.sensors.bumps_wheelDrops.bumpRight = true) :
    (step32 s x).state = BACK
      ∧ (step32 s x).bump = true
      ∧ (step32 s x).rightTurnAngle
          = (if x.sensors.bumps_wheelDrops.bumpLeft = true
                ∧ x.sensors.bumps_wheelDrops.bumpRight = true then 90
             else if x.sensors.bumps_wheelDrops.bumpLeft = true then 30
             else 145)
      ∧ (step32 s x).angle = wrap32 (s.angle + (step32 s x).rightTurnAngle)
      ∧ (fits32 (s.angle + (step32 s x).rightTurnAngle) →
          (step32 s x).angle = s.angle + (step32 s x).rightTurnAngle)
      ∧ (step32 s x).distanceAtManeuverStart = x.netDistance
      ∧ (step32 s x).angleAtManeuverStart = x.netAngle
      ∧ (step32 s x).passed = s.passed
      ∧ (step32 s x).driveForAdjustment = s.driveForAdjustment
      ∧ (step32 s x).timeToAdjustAngle = s.timeToAdjustAngle
      ∧ (step32 s x).leftTurnAngle = s.leftTurnAngle
      ∧ (step32 s x).distance = s.distance := by
  cases hl : x.sensors.bumps_wheelDrops.bumpLeft <;>
    cases hr : x.sensors.bumps_wheelDrops.bumpRight <;>
    simp [step32, irobotNavigationStatechart32, transition32, hstate, hplay, hl, hr]
      at hbump ⊢ <;>
    exact fun h => wrap32_of_fits _ h

theorem collision_preempts_recovery_witness :
    (step32 { Statics.init with
              state := DRIVE, passed := true, driveForAdjustment := true,
              timeToAdjustAngle := true, distance := 10, angle := -60 }
        (⟨1000, 0, ⟨⟨true, true⟩, ⟨false⟩⟩, (), false⟩ : Snapshot Unit)).angle = -60 + 90 :=
  (collision_preempts_recovery
    { Statics.init with
      state := DRIVE, passed := true, driveForAdjustment := true,
      timeToAdjustAngle := true, distance := 10, angle := -60 }
    (⟨1000, 0, ⟨⟨true, true⟩, ⟨false⟩⟩, (), false⟩ : Snapshot Unit)
    rfl rfl (Or.inl rfl)).2.2.2.2.1 (by decide)

/-- C4 as stated fails: in DRIVE with angle 2147483640, a snapshot with only the
right bumper set and the button not pressed gives rightTurnAngle 145 and leaves
angle at -2147483511, the 32-bit sum, not at 2147483640 + 145. -/
theorem collision_angle_counterexample :
    ({ Statics.init with state := DRIVE, angle := 2147483640 } : Statics).state = DRIVE
      ∧ (step32 { Statics.init with state := DRIVE, angle := 2147483640 }
          (⟨0, 0, ⟨⟨false, true⟩, ⟨false⟩⟩, (), false⟩ : Snapshot Unit)).state = BACK
      ∧ (step32 { Statics.init with state := DRIVE, angle := 2147483640 }
          (⟨0, 0, ⟨⟨false, true⟩, ⟨false⟩⟩, (), false⟩ : Snapshot Unit)).rightTurnAngle = 145
      ∧ (step32 { Statics.init with state := DRIVE, angle := 2147483640 }
          (⟨0, 0, ⟨⟨false, true⟩, ⟨false⟩⟩, (), false⟩ : Snapshot Unit)).angle = -2147483511
      ∧ ¬ ((step32 { Statics.init with state := DRIVE, angle := 2147483640 }
          (⟨0, 0, ⟨⟨false, true⟩, ⟨false⟩⟩, (), false⟩ : Snapshot Unit)).angle
            = 2147483640 + 145) := by
  decide

/-- C5, as the code has it (back distance threshold): from BACK with the pause
button not pressed, an evaluation whose relative distance is below 50 changes
nothing and outputs (-100, -100); one whose relative distance is at least 50 and
at most 2147483647 gives TURNRIGHT; so over a sequence of button-free snapshots
the state is BACK after each snapshot that comes before the first one with
relative distance from 50 to 2147483647, and TURNRIGHT after that one. -/
theorem back_distance_threshold {A : Type} (s : Statics) (hstate : s.state = BACK) :
    (∀ x : Snapshot A, x.sensors.buttons.play = false →
        |x.netDistance - s.distanceAtManeuverStart| < 50 →
        step32 s x = s
          ∧ speeds32 s x = { leftWheelSpeed := -100, rightWheelSpeed := -100 })
      ∧ (∀ x : Snapshot A, x.sensors.buttons.play = false →
        |x.netDistance - s.distanceAtManeuverStart| ≥ 50 →
        |x.netDistance - s.distanceAtManeuverStart| ≤ 2147483647 →
        (step32 s x).state = TURNRIGHT)
      ∧ (∀ (pre : List (Snapshot A)) (x : Snapshot A),
        (∀ y ∈ pre, y.sensors.buttons.play = false
          ∧ |y.netDistance - s.distanceAtManeuverStart| < 50) →
        x.sensors.buttons.play = false →
        |x.netDistance - s.distanceAtManeuverStart| ≥ 50 →
        |x.netDistance - s.distanceAtManeuverStart| ≤ 2147483647 →
        (∀ k, k ≤ pre.length → (run32 s (pre.take k)).state = BACK)
          ∧ (run32 s (pre ++ [x])).state = TURNRIGHT) := by
  have stay : ∀ x : Snapshot A, x.sensors.buttons.play = false →
      |x.netDistance - s.distanceAtManeuverStart| < 50 → step32 s x = s := by
    intro x hp hlt
    have e := abs32_wrap32 (x.netDistance - s.distanceAtManeuverStart) (by omega)
    simp [step32, irobotNavigationStatechart32, transition32, hstate, hp, e, hlt]
  have leave : ∀ x : Snapshot A, x.sensors.buttons.play = false →
      |x.netDistance - s.distanceAtManeuverStart| ≥ 50 →
      |x.netDistance - s.distanceAtManeuverStart| ≤ 2147483647 →
      (step32 s x).state = TURNRIGHT := by
    intro x hp hge hle
    have e := abs32_wrap32 (x.netDistance - s.distanceAtManeuverStart) hle
    simp [step32, irobotNavigationStatechart32, transition32, hstate, hp, e, hge]
  refine ⟨fun x hp hlt => ⟨stay x hp hlt, ?_⟩, leave, ?_⟩
  · have h := stay x hp hlt
    simp only [step32] at h
    simp [speeds32, irobotNavigationStatechart32, stateActions] at h ⊢
    rw [h, hstate]
  · intro pre x hpre hp hge hle
    have hall : ∀ y ∈ pre, step32 s y = s := fun y hy => stay y (hpre y hy).1 (hpre y hy).2
    refine ⟨fun k _ => ?_, ?_⟩
    · rw [run32_take_eq_self s pre hall k, hstate]
    · rw [run32_append, run32_eq_self s pre hall, run32_cons, run32_nil]
      exact leave x hp hge hle

theorem back_distance_threshold_witness :
    (run32 { Statics.init with state := BACK, bump := true, rightTurnAngle := 30, angle := 30 }
        ([⟨-10, 0, ⟨⟨false, false⟩, ⟨false⟩⟩, (), false⟩,
          ⟨-49, 1, ⟨⟨false, false⟩, ⟨false⟩⟩, (), false⟩]
          ++ [(⟨-50, 1, ⟨⟨false, false⟩, ⟨false⟩⟩, (), false⟩ : Snapshot Unit)])).state
      = TURNRIGHT :=
  ((back_distance_threshold
      { Statics.init with state := BACK, bump := true, rightTurnAngle := 30, angle := 30 }
      rfl).2.2
    [⟨-10, 0, ⟨⟨false, false⟩, ⟨false⟩⟩, (), false⟩,
     ⟨-49, 1, ⟨⟨false, false⟩, ⟨false⟩⟩, (), false⟩]
    (⟨-50, 1, ⟨⟨false, false⟩, ⟨false⟩⟩, (), false⟩ : Snapshot Unit)
    (by decide) rfl (by decide) (by decide)).2

/-- C5 as stated fails: in BACK with reference distance 0, a button-free snapshot
with net distance -2147483648 has relative distance 2147483648, at least 50, and
the evaluation stays in BACK: the 32-bit abs of -2147483648 is negative. -/
theorem back_distance_counterexample :
    ({ Statics.init with state := BACK, bump := true } : Statics).state = BACK
      ∧ (⟨-2147483648, 0, ⟨⟨false, false⟩, ⟨false⟩⟩, (), false⟩
          : Snapshot Unit).sensors.buttons.play = false
      ∧ |(-2147483648 : Int)
          - ({ Statics.init with state := BACK, bump := true }
              : Statics).distanceAtManeuverStart| ≥ 50
      ∧ (step32 { Statics.init with state := BACK, bump := true }
          (⟨-2147483648, 0, ⟨⟨false, false⟩, ⟨false⟩⟩, (), false⟩ : Snapshot Unit)).state
          = BACK
      ∧ ¬ ((step32 { Statics.init with state := BACK, bump := true }
          (⟨-2147483648, 0, ⟨⟨false, false⟩, ⟨false⟩⟩, (), false⟩ : Snapshot Unit)).state
          = TURNRIGHT) := by
  decide

/-- C7, as the code has it (end-to-end scenario): from DRIVE with default memory
and the button never pressed, an evaluation at odometry (0, 0) with only the
left bumper set gives BACK with rightTurnAngle 30, angle 30 and output
(-100, -100); a following one at distance -50 (angle still 0, no bumps) gives
TURNRIGHT; and following ones with no bumps keep TURNRIGHT while the absolute
net angle is below 30 and give DRIVE with driveForAdjustment set at the first
one where it is at least 30 and at most 2147483647. -/
theorem end_to_end_scenario {A : Type} (a1 a2 : A) (b1 b2 : Bool) :
    (step32 driveStart ⟨0, 0, ⟨⟨true, false⟩, ⟨false⟩⟩, a1, b1⟩).state = BACK
      ∧ (step32 driveStart ⟨0, 0, ⟨⟨true, false⟩, ⟨false⟩⟩, a1, b1⟩).rightTurnAngle = 30
      ∧ (step32 driveStart ⟨0, 0, ⟨⟨true, false⟩, ⟨false⟩⟩, a1, b1⟩).angle = 30
      ∧ speeds32 driveStart ⟨0, 0, ⟨⟨true, false⟩, ⟨false⟩⟩, a1, b1⟩
          = { leftWheelSpeed := -100, rightWheelSpeed := -100 }
      ∧ (run32 driveStart [⟨0, 0, ⟨⟨true, false⟩, ⟨false⟩⟩, a1, b1⟩,
            ⟨-50, 0, ⟨⟨false, false⟩, ⟨false⟩⟩, a2, b2⟩]).state = TURNRIGHT
      ∧ ∀ (pre : List (Snapshot A)) (x : Snapshot A),
          (∀ y ∈ pre, y.sensors = ⟨⟨false, false⟩, ⟨false⟩⟩ ∧ |y.netAngle| < 30) →
          x.sensors = ⟨⟨false, false⟩, ⟨false⟩⟩ →
          |x.netAngle| ≥ 30 →
          |x.netAngle| ≤ 2147483647 →
          (∀ k, k ≤ pre.length →
              (run32 driveStart ([⟨0, 0, ⟨⟨true, false⟩, ⟨false⟩⟩, a1, b1⟩,
                ⟨-50, 0, ⟨⟨false, false⟩, ⟨false⟩⟩, a2, b2⟩] ++ pre.take k)).state = TURNRIGHT)
            ∧ (run32 driveStart ([⟨0, 0, ⟨⟨true, false⟩, ⟨false⟩⟩, a1, b1⟩,
                ⟨-50, 0, ⟨⟨false, false⟩, ⟨false⟩⟩, a2, b2⟩] ++ pre ++ [x])).state = DRIVE
            ∧ (run32 driveStart ([⟨0, 0, ⟨⟨true, false⟩, ⟨false⟩⟩, a1, b1⟩,
                ⟨-50, 0, ⟨⟨false, false⟩, ⟨false⟩⟩, a2, b2⟩] ++ pre ++ [x])).driveForAdjustment
                = true := by
  have w30 : wrap32 30 = 30 := by decide
  have w50 : abs32 (wrap32 (-50)) = 50 := by decide
  have h2 : run32 driveStart [⟨0, 0, ⟨⟨true, false⟩, ⟨false⟩⟩, a1, b1⟩,
      ⟨-50, 0, ⟨⟨false, false⟩, ⟨false⟩⟩, a2, b2⟩]
      = { driveStart with
          state := TURNRIGHT, bump := true, rightTurnAngle := 30, angle := 30,
          distanceAtManeuverStart := -50, angleAtManeuverStart := 0 } := by
    simp [run32, step32, irobotNavigationStatechart32, transition32, driveStart, Statics.init,
      w30, w50]
  refine ⟨?_, ?_, ?_, ?_, ?_, ?_⟩
  · simp [step32, irobotNavigationStatechart32, transition32, driveStart, Statics.init]
  · simp [step32, irobotNavigationStatechart32, transition32, driveStart, Statics.init]
  · simp [step32, irobotNavigationStatechart32, transition32, driveStart, Statics.init, w30]
  · simp [speeds32, irobotNavigationStatechart32, transition32, stateActions, driveStart,
      Statics.init]
  · rw [h2]
  · intro pre x hpre hx hge hle
    have hall : ∀ y ∈ pre,
        step32 { driveStart with
            state := TURNRIGHT, bump := true, rightTurnAngle := 30, angle := 30,
            distanceAtManeuverStart := -50, angleAtManeuverStart := 0 } y
          = { driveStart with
              state := TURNRIGHT, bump := true, rightTurnAngle := 30, angle := 30,
              distanceAtManeuverStart := -50, angleAtManeuverStart := 0 } := by
      intro y hy
      obtain ⟨hs, hlt⟩ := hpre y hy
      have e := abs32_wrap32 y.netAngle (by omega)
      simp [step32, irobotNavigationStatechart32, transition32, driveStart, Statics.init, hs,
        e, hlt]
    have e := abs32_wrap32 x.netAngle hle
    refine ⟨fun k _ => ?_, ?_, ?_⟩
    · rw [run32_append, h2, run32_take_eq_self _ pre hall k]
    · rw [run32_append, run32_append, h2, run32_eq_self _ pre hall, run32_cons, run32_nil]
      simp [step32, irobotNavigationStatechart32, transition32, driveStart, Statics.init, hx,
        e, hge]
    · rw [run32_append, run32_append, h2, run32_eq_self _ pre hall, run32_cons, run32_nil]
      simp [step32, irobotNavigationStatechart32, transition32, driveStart, Statics.init, hx,
        e, hge]

theorem end_to_end_scenario_witness :
    (run32 driveStart
        ([⟨0, 0, ⟨⟨true, false⟩, ⟨false⟩⟩, (), false⟩,
          ⟨-50, 0, ⟨⟨false, false⟩, ⟨false⟩⟩, (), false⟩]
          ++ [⟨-50, 10, ⟨⟨false, false⟩, ⟨false⟩⟩, (), false⟩,
              ⟨-50, -29, ⟨⟨false, false⟩, ⟨false⟩⟩, (), false⟩]
          ++ [(⟨-50, 30, ⟨⟨false, false⟩, ⟨false⟩⟩, (), false⟩ : Snapshot Unit)])).state
      = DRIVE :=
  ((end_to_end_scenario () () false false).2.2.2.2.2
    [⟨-50, 10, ⟨⟨false, false⟩, ⟨false⟩⟩, (), false⟩,
     ⟨-50, -29, ⟨⟨false, false⟩, ⟨false⟩⟩, (), false⟩]
    (⟨-50, 30, ⟨⟨false, false⟩, ⟨false⟩⟩, (), false⟩ : Snapshot Unit)
    (by decide) rfl (by decide) (by decide)).2.1

/-- C7 as stated fails in its last step: after the two evaluations of the
scenario the state is TURNRIGHT with reference angle 0 and rightTurnAngle 30; a
bumper-free, button-free snapshot with net angle -2147483648 has absolute net
angle at least 30, and the evaluation stays in TURNRIGHT. -/
theorem end_to_end_counterexample :
    (run32 driveStart
        [(⟨0, 0, ⟨⟨true, false⟩, ⟨false⟩⟩, (), false⟩ : Snapshot Unit),
         ⟨-50, 0, ⟨⟨false, false⟩, ⟨false⟩⟩, (), false⟩]).state = TURNRIGHT
      ∧ |(-2147483648 : Int)| ≥ 30
      ∧ (run32 driveStart
        [(⟨0, 0, ⟨⟨true, false⟩, ⟨false⟩⟩, (), false⟩ : Snapshot Unit),
         ⟨-50, 0, ⟨⟨false, false⟩, ⟨false⟩⟩, (), false⟩,
         ⟨-50, -2147483648, ⟨⟨false, false⟩, ⟨false⟩⟩, (), false⟩]).state = TURNRIGHT
      ∧ ¬ ((run32 driveStart
        [(⟨0, 0, ⟨⟨true, false⟩, ⟨false⟩⟩, (), false⟩ : Snapshot Unit),
         ⟨-50, 0, ⟨⟨false, false⟩, ⟨false⟩⟩, (), false⟩,
         ⟨-50, -2147483648, ⟨⟨false, false⟩, ⟨false⟩⟩, (), false⟩]).state = DRIVE) := by
  decide

/-- C8, as the code has it (completion of the final corrective right turn): from
TURNRIGHT with passed set, the pause button not pressed and the relative angle
at least rightTurnAngle and at most 2147483647, one evaluation gives DRIVE with
bump, passed and timeToAdjustAngle cleared, both turn angles 90, distance 0,
angle 0, and driveForAdjustment cleared: the reset comes after the arming and
undoes it. -/
theorem turnright_completion_after_recovery {A : Type} (s : Statics) (x : Snapshot A)
    (hstate : s.state = TURNRIGHT) (hpassed : s.passed = true)
    (hplay : x.sensors.buttons.play = false)
    (hge : |x.netAngle - s.angleAtManeuverStart| ≥ s.rightTurnAngle)
    (hle : |x.netAngle - s.angleAtManeuverStart| ≤ 2147483647) :
    (step32 s x).state = DRIVE
      ∧ (step32 s x).bump = false
      ∧ (step32 s x).passed = false
      ∧ (step32 s x).timeToAdjustAngle = false
      ∧ (step32 s x).rightTurnAngle = 90
      ∧ (step32 s x).leftTurnAngle = 90
      ∧ (step32 s x).distance = 0
      ∧ (step32 s x).angle = 0
      ∧ (step32 s x).driveForAdjustment = false := by
  have e := abs32_wrap32 (x.netAngle - s.angleAtManeuverStart) hle
  simp [step32, irobotNavigationStatechart32, transition32, hstate, hpassed, hplay, e, hge]

theorem turnright_completion_after_recovery_witness :
    (step32 finalTurnStatics finalTurnSnapshot).driveForAdjustment = false :=
  (turnright_completion_after_recovery finalTurnStatics finalTurnSnapshot
    rfl rfl rfl (by decide) (by decide)).2.2.2.2.2.2.2.2

/-- C8 as stated fails: finalTurnStatics is a TURNRIGHT state with passed set,
rightTurnAngle 60 and reference angle 0, finalTurnSnapshot is a button-free
snapshot with net angle 60, so every condition of the claim holds, and the
evaluation leaves driveForAdjustment false, not true. -/
theorem turnright_completion_armed_counterexample :
    finalTurnStatics.state = TURNRIGHT
      ∧ finalTurnStatics.passed = true
      ∧ finalTurnSnapshot.sensors.buttons.play = false
      ∧ |finalTurnSnapshot.netAngle - finalTurnStatics.angleAtManeuverStart|
          ≥ finalTurnStatics.rightTurnAngle
      ∧ (step32 finalTurnStatics finalTurnSnapshot).state = DRIVE
      ∧ (step32 finalTurnStatics finalTurnSnapshot).driveForAdjustment = false
      ∧ ¬ ((step32 finalTurnStatics finalTurnSnapshot).driveForAdjustment = true) := by
  decide

/-- C9, as the code has it (DRIVE rule 4, clearance leg done): from DRIVE with the
button not pressed, no bumper set, passed clear, driveForAdjustment set and a
relative distance r of at least 500 and at most 2147483647, one evaluation gives
TURNLEFT with driveForAdjustment cleared, both references set to the current
odometry, and bump, passed, timeToAdjustAngle and both turn angles unchanged;
distance becomes the 32-bit sum of distance and r and angle the 32-bit
difference of angle and leftTurnAngle, which are the exact sum and difference
whenever those are int32 values; the value of bump plays no part, so rule 4
also wins when bump is set and r is at least 600. -/
theorem drive_rule4_clearance_leg {A : Type} (s : Statics) (x : Snapshot A)
    (hstate : s.state = DRIVE) (hplay : x.sensors.buttons.play = false)
    (hleft : x.sensors.bumps_wheelDrops.bumpLeft = false)
    (hright : x.sensors.bumps_wheelDrops.bumpRight = false)
    (hpassed : s.passed = false) (hadjust : s.driveForAdjustment = true)
    (hge : |x.netDistance - s.distanceAtManeuverStart| ≥ 500)
    (hle : |x.netDistance - s.distanceAtManeuverStart| ≤ 2147483647) :
    (step32 s x).state = TURNLEFT
      ∧ (step32 s x).distance
          = wrap32 (s.distance + |x.netDistance - s.distanceAtManeuverStart|)
      ∧ (fits32 (s.distance + |x.netDistance - s.distanceAtManeuverStart|) →
          (step32 s x).distance = s.distance + |x.netDistance - s.distanceAtManeuverStart|)
      ∧ (step32 s x).driveForAdjustment = false
      ∧ (step32 s x).angle = wrap32 (s.angle - s.leftTurnAngle)
      ∧ (fits32 (s.angle - s.leftTurnAngle) →
          (step32 s x).angle = s.angle - s.leftTurnAngle)
      ∧ (step32 s x).distanceAtManeuverStart = x.netDistance
      ∧ (step32 s x).angleAtManeuverStart = x.netAngle
      ∧ (step32 s x).bump = s.bump
      ∧ (step32 s x).passed = s.passed
      ∧ (step32 s x).timeToAdjustAngle = s.timeToAdjustAngle
      ∧ (step32 s x).rightTurnAngle = s.rightTurnAngle
      ∧ (step32 s x).leftTurnAngle = s.leftTurnAngle := by
  have e := abs32_wrap32 (x.netDistance - s.distanceAtManeuverStart) hle
  simp [step32, irobotNavigationStatechart32, transition32, hstate, hplay, hleft, hright,
    hpassed, hadjust, e, hge]
  exact ⟨fun h => wrap32_of_fits _ h, fun h => wrap32_of_fits _ h⟩

theorem drive_rule4_clearance_leg_witness :
    (step32 { Statics.init with
            state := DRIVE, bump := true, driveForAdjustment := true, rightTurnAngle := 30,
            angle := 30, distanceAtManeuverStart := -50 }
        (⟨650, 30, ⟨⟨false, false⟩, ⟨false⟩⟩, (), false⟩ : Snapshot Unit)).distance
      = 0 + |(650 : Int) - (-50)| :=
  (drive_rule4_clearance_leg
    { Statics.init with
      state := DRIVE, bump := true, driveForAdjustment := true, rightTurnAngle := 30,
      angle := 30, distanceAtManeuverStart := -50 }
    (⟨650, 30, ⟨⟨false, false⟩, ⟨false⟩⟩, (), false⟩ : Snapshot Unit)
    rfl rfl rfl rfl rfl rfl (by decide) (by decide)).2.2.1 (by decide)

/-- C9 as stated fails: in DRIVE with passed clear, driveForAdjustment set and
reference distance 0, a bumper-free, button-free snapshot with net distance
-2147483648 has relative distance 2147483648, at least 500, and the evaluation
stays in DRIVE; and with distance 2147483000 and relative distance 700 the
evaluation stores distance -2147483596, not 2147483700. -/
theorem drive_rule4_counterexample :
    |(-2147483648 : Int)
        - ({ Statics.init with state := DRIVE, bump := true, driveForAdjustment := true }
            : Statics).distanceAtManeuverStart| ≥ 500
      ∧ (step32 { Statics.init with state := DRIVE, bump := true, driveForAdjustment := true }
          (⟨-2147483648, 0, ⟨⟨false, false⟩, ⟨false⟩⟩, (), false⟩ : Snapshot Unit)).state
          = DRIVE
      ∧ (step32 { Statics.init with
              state := DRIVE, bump := true, driveForAdjustment := true,
              distance := 2147483000 }
          (⟨700, 0, ⟨⟨false, false⟩, ⟨false⟩⟩, (), false⟩ : Snapshot Unit)).state = TURNLEFT
      ∧ (step32 { Statics.init with
              state := DRIVE, bump := true, driveForAdjustment := true,
              distance := 2147483000 }
          (⟨700, 0, ⟨⟨false, false⟩, ⟨false⟩⟩, (), false⟩ : Snapshot Unit)).distance
          = -2147483596
      ∧ ¬ ((step32 { Statics.init with
              state := DRIVE, bump := true, driveForAdjustment := true,
              distance := 2147483000 }
          (⟨700, 0, ⟨⟨false, false⟩, ⟨false⟩⟩, (), false⟩ : Snapshot Unit)).distance
          = 2147483000 + 700) := by
  decide

/-- C10, as the code has it (DRIVE rule 5, final heading correction): from DRIVE
with the button not pressed, no bumper set, passed and timeToAdjustAngle set and
a relative distance of at least distance and at most 2147483647, one evaluation
gives TURNRIGHT with timeToAdjustAngle cleared, both references set to the
current odometry, and angle, distance, bump, passed, driveForAdjustment and
leftTurnAngle unchanged; rightTurnAngle becomes the 32-bit abs of angle, which
is the absolute value of angle whenever that is at most 2147483647. -/
theorem drive_rule5_heading_correction {A : Type} (s : Statics) (x : Snapshot A)
    (hstate : s.state = DRIVE) (hplay : x.sensors.buttons.play = false)
    (hleft : x.sensors.bumps_wheelDrops.bumpLeft = false)
    (hright : x.sensors.bumps_wheelDrops.bumpRight = false)
    (hpassed : s.passed = true) (hadjust : s.timeToAdjustAngle = true)
    (hge : |x.netDistance - s.distanceAtManeuverStart| ≥ s.distance)
    (hle : |x.netDistance - s.distanceAtManeuverStart| ≤ 2147483647) :
    (step32 s x).state = TURNRIGHT
      ∧ (step32 s x).rightTurnAngle = abs32 s.angle
      ∧ (|s.angle| ≤ 2147483647 → (step32 s x).rightTurnAngle = |s.angle|)
      ∧ (step32 s x).timeToAdjustAngle = false
      ∧ (step32 s x).distanceAtManeuverStart = x.netDistance
      ∧ (step32 s x).angleAtManeuverStart = x.netAngle
      ∧ (step32 s x).angle = s.angle
      ∧ (step32 s x).distance = s.distance
      ∧ (step32 s x).bump = s.bump
      ∧ (step32 s x).passed = s.passed
      ∧ (step32 s x).driveForAdjustment = s.driveForAdjustment
      ∧ (step32 s x).leftTurnAngle = s.leftTurnAngle := by
  have e := abs32_wrap32 (x.netDistance - s.distanceAtManeuverStart) hle
  simp [step32, irobotNavigationStatechart32, transition32, hstate, hplay, hleft, hright,
    hpassed, hadjust, e, hge]
  intro hang
  have h := abs_le.mp hang
  exact abs32_of_gt _ (by omega) (by omega)

theorem drive_rule5_heading_correction_witness :
    (step32 { Statics.init with
            state := DRIVE, passed := true, timeToAdjustAngle := true, rightTurnAngle := 30,
            distance := 700, angle := -150, distanceAtManeuverStart := 1300 }
        (⟨2000, -60, ⟨⟨false, false⟩, ⟨false⟩⟩, (), false⟩ : Snapshot Unit)).rightTurnAngle
      = |(-150 : Int)| :=
  (drive_rule5_heading_correction
    { Statics.init with
      state := DRIVE, passed := true, timeToAdjustAngle := true, rightTurnAngle := 30,
      distance := 700, angle := -150, distanceAtManeuverStart := 1300 }
    (⟨2000, -60, ⟨⟨false, false⟩, ⟨false⟩⟩, (), false⟩ : Snapshot Unit)
    rfl rfl rfl rfl rfl rfl (by decide) (by decide)).2.2.1 (by decide)

/-- C10 as stated fails: in DRIVE with passed and timeToAdjustAngle set, distance
700 and reference distance 0, a bumper-free, button-free snapshot with net
distance -2147483648 has relative distance 2147483648, at least 700, and the
evaluation stays in DRIVE. -/
theorem drive_rule5_counterexample :
    |(-2147483648 : Int)
        - ({ Statics.init with
              state := DRIVE, passed := true, timeToAdjustAngle := true, distance := 700,
              angle := -150 } : Statics).distanceAtManeuverStart| ≥ 700
      ∧ (step32 { Statics.init with
              state := DRIVE, passed := true, timeToAdjustAngle := true, distance := 700,
              angle := -150 }
          (⟨-2147483648, 0, ⟨⟨false, false⟩, ⟨false⟩⟩, (), false⟩ : Snapshot Unit)).state
          = DRIVE
      ∧ ¬ ((step32 { Statics.init with
              state := DRIVE, passed := true, timeToAdjustAngle := true, distance := 700,
              angle := -150 }
          (⟨-2147483648, 0, ⟨⟨false, false⟩, ⟨false⟩⟩, (), false⟩ : Snapshot Unit)).state
          = TURNRIGHT) := by
  decide

/-- C11, as the code has it (DRIVE rule 6, obstacle passed, and rule 7): from
DRIVE with the button not pressed, no bumper set and the guards of rules 4 and 5
both false: when bump is set and the relative distance is at least 600 and at
most 2147483647, one evaluation gives TURNLEFT with bump cleared, passed and
timeToAdjustAngle set, both references set to the current odometry, and
distance, driveForAdjustment and both turn angles unchanged, while angle becomes
the 32-bit difference of angle and leftTurnAngle, the exact difference whenever
that is an int32; and when the guard of rule 6 is false as well, the evaluation
changes nothing. -/
theorem drive_rule6_obstacle_passed {A : Type} (s : Statics) (x : Snapshot A)
    (hstate : s.state = DRIVE) (hplay : x.sensors.buttons.play = false)
    (hleft : x.sensors.bumps_wheelDrops.bumpLeft = false)
    (hright : x.sensors.bumps_wheelDrops.bumpRight = false)
    (h4 : ¬ (s.passed = false ∧ s.driveForAdjustment = true
      ∧ |x.netDistance - s.distanceAtManeuverStart| ≥ 500))
    (h5 : ¬ (s.passed = true ∧ s.timeToAdjustAngle = true
      ∧ |x.netDistance - s.distanceAtManeuverStart| ≥ s.distance)) :
    (s.bump = true ∧ |x.netDistance - s.distanceAtManeuverStart| ≥ 600
        ∧ |x.netDistance - s.distanceAtManeuverStart| ≤ 2147483647 →
        (step32 s x).state = TURNLEFT
          ∧ (step32 s x).bump = false
          ∧ (step32 s x).passed = true
          ∧ (step32 s x).timeToAdjustAngle = true
          ∧ (step32 s x).angle = wrap32 (s.angle - s.leftTurnAngle)
          ∧ (fits32 (s.angle - s.leftTurnAngle) →
              (step32 s x).angle = s.angle - s.leftTurnAngle)
          ∧ (step32 s x).distanceAtManeuverStart = x.netDistance
          ∧ (step32 s x).angleAtManeuverStart = x.netAngle
          ∧ (step32 s x).distance = s.distance
          ∧ (step32 s x).driveForAdjustment = s.driveForAdjustment
          ∧ (step32 s x).rightTurnAngle = s.rightTurnAngle
          ∧ (step32 s x).leftTurnAngle = s.leftTurnAngle)
      ∧ (¬ (s.bump = true ∧ |x.netDistance - s.distanceAtManeuverStart| ≥ 600) →
        step32 s x = s) := by
  have hle := abs32_wrap32_le (x.netDistance - s.distanceAtManeuverStart)
  have g4 : (!s.passed && s.driveForAdjustment
      && decide (abs32 (wrap32 (x.netDistance - s.distanceAtManeuverStart)) ≥ 500))
      = false := by
    cases hp : s.passed <;> cases hd : s.driveForAdjustment <;> simp_all
    omega
  have g5 : (s.passed && s.timeToAdjustAngle
      && decide (abs32 (wrap32 (x.netDistance - s.distanceAtManeuverStart)) ≥ s.distance))
      = false := by
    cases hp : s.passed <;> cases hd : s.timeToAdjustAngle <;> simp_all
    omega
  refine ⟨fun h6 => ?_, fun h6 => ?_⟩
  · have e := abs32_wrap32 (x.netDistance - s.distanceAtManeuverStart) h6.2.2
    have g6 : (s.bump
        && decide (abs32 (wrap32 (x.netDistance - s.distanceAtManeuverStart)) ≥ 600))
        = true := by
      simp [e, h6.1, h6.2.1]
    simp [step32, irobotNavigationStatechart32, transition32, hstate, hplay, hleft, hright,
      g4, g5, g6]
    exact fun h => wrap32_of_fits _ h
  · have g6 : (s.bump
        && decide (abs32 (wrap32 (x.netDistance - s.distanceAtManeuverStart)) ≥ 600))
        = false := by
      cases hb : s.bump <;> simp_all
      omega
    simp [step32, irobotNavigationStatechart32, transition32, hstate, hplay, hleft, hright,
      g4, g5, g6]

theorem drive_rule6_obstacle_passed_witness :
    (step32 { Statics.init with
            state := DRIVE, bump := true, rightTurnAngle := 30, distance := 500, angle := -60,
            distanceAtManeuverStart := 450, angleAtManeuverStart := -60 }
        (⟨1050, -60, ⟨⟨false, false⟩, ⟨false⟩⟩, (), false⟩ : Snapshot Unit)).state = TURNLEFT :=
  ((drive_rule6_obstacle_passed
      { Statics.init with
        state := DRIVE, bump := true, rightTurnAngle := 30, distance := 500, angle := -60,
        distanceAtManeuverStart := 450, angleAtManeuverStart := -60 }
      (⟨1050, -60, ⟨⟨false, false⟩, ⟨false⟩⟩, (), false⟩ : Snapshot Unit)
      rfl rfl rfl rfl (by decide) (by decide)).1 (by decide)).1

/-- C11 as stated fails: in DRIVE with bump set, passed and driveForAdjustment
clear (so the guards of rules 4 and 5 are false) and reference distance 0, a
bumper-free, button-free snapshot with net distance -2147483648 has relative
distance 2147483648, at least 600, and the evaluation stays in DRIVE. -/
theorem drive_rule6_counterexample :
    ({ Statics.init with state := DRIVE, bump := true } : Statics).passed = false
      ∧ ({ Statics.init with state := DRIVE, bump := true } : Statics).driveForAdjustment
          = false
      ∧ ({ Statics.init with state := DRIVE, bump := true } : Statics).bump = true
      ∧ |(-2147483648 : Int)
          - ({ Statics.init with state := DRIVE, bump := true }
              : Statics).distanceAtManeuverStart| ≥ 600
      ∧ (step32 { Statics.init with state := DRIVE, bump := true }
          (⟨-2147483648, 0, ⟨⟨false, false⟩, ⟨false⟩⟩, (), false⟩ : Snapshot Unit)).state
          = DRIVE
      ∧ ¬ ((step32 { Statics.init with state := DRIVE, bump := true }
          (⟨-2147483648, 0, ⟨⟨false, false⟩, ⟨false⟩⟩, (), false⟩ : Snapshot Unit)).state
          = TURNLEFT) := by
  decide

/-! ## Width-independent facts, checked on the 32-bit embedding

The statements of the turns, of the references and of leftTurnAngle that are
proved above over the mathematical integers also hold of the 32-bit embedding,
for all values of the statics and of the odometry. -/

/-- In a turn, with the button not pressed, a relative angle below the stored
target leaves the statics alone in 32-bit arithmetic as well, the state after
the evaluation is the turn or DRIVE, and it is DRIVE only if the relative angle
has reached the target. -/
theorem turn_completion_by_angle32 {A : Type} (s : Statics) (x : Snapshot A)
    (hplay : x.sensors.buttons.play = false) :
    (s.state = TURNLEFT →
        (|x.netAngle - s.angleAtManeuverStart| < s.leftTurnAngle → step32 s x = s)
          ∧ ((step32 s x).state = DRIVE →
            |x.netAngle - s.angleAtManeuverStart| ≥ s.leftTurnAngle)
          ∧ ((step32 s x).state = DRIVE ∨ (step32 s x).state = TURNLEFT))
      ∧ (s.state = TURNRIGHT →
        (|x.netAngle - s.angleAtManeuverStart| < s.rightTurnAngle → step32 s x = s)
          ∧ ((step32 s x).state = DRIVE →
            |x.netAngle - s.angleAtManeuverStart| ≥ s.rightTurnAngle)
          ∧ ((step32 s x).state = DRIVE ∨ (step32 s x).state = TURNRIGHT)) := by
  have hle := abs32_wrap32_le (x.netAngle - s.angleAtManeuverStart)
  refine ⟨fun hstate => ?_, fun hstate => ?_⟩
  · by_cases hg : abs32 (wrap32 (x.netAngle - s.angleAtManeuverStart)) ≥ s.leftTurnAngle
    · simp [step32, irobotNavigationStatechart32, transition32, hstate, hplay, hg]
      constructor
      · intro hlt
        omega
      · omega
    · simp [step32, irobotNavigationStatechart32, transition32, hstate, hplay, hg]
  · by_cases hg : abs32 (wrap32 (x.netAngle - s.angleAtManeuverStart)) ≥ s.rightTurnAngle
    · simp [step32, irobotNavigationStatechart32, transition32, hstate, hplay, hg]
      constructor
      · intro hlt
        omega
      · omega
    · simp [step32, irobotNavigationStatechart32, transition32, hstate, hplay, hg]

/-- In 32-bit arithmetic too, a button-free evaluation from a run-region state
either changes nothing, or changes the state and sets both references to the
current odometry. -/
theorem step32_run_region {A : Type} (s : Statics) (x : Snapshot A)
    (hrun : runRegion s.state) (hplay : x.sensors.buttons.play = false) :
    step32 s x = s
      ∨ ((step32 s x).state ≠ s.state
        ∧ (step32 s x).distanceAtManeuverStart = x.netDistance
        ∧ (step32 s x).angleAtManeuverStart = x.netAngle) := by
  rcases hrun with h | h | h | h | h
  · simp [step32, irobotNavigationStatechart32, transition32, h, hplay]
    split_ifs <;> simp_all
  · simp [step32, irobotNavigationStatechart32, transition32, h, hplay]
    split_ifs <;> simp_all
  · simp [step32, irobotNavigationStatechart32, transition32, h, hplay]
    split_ifs <;> simp_all
  · simp [step32, irobotNavigationStatechart32, transition32, h, hplay]
    split_ifs <;> simp_all
  · simp [step32, irobotNavigationStatechart32, transition32, h, hplay]

/-- In 32-bit arithmetic too, one evaluation keeps leftTurnAngle at 90. -/
theorem step32_leftTurnAngle {A : Type} (s : Statics) (x : Snapshot A)
    (h : s.leftTurnAngle = 90) : (step32 s x).leftTurnAngle = 90 := by
  cases hs : s.state <;> cases hp : x.sensors.buttons.play <;>
    simp [step32, irobotNavigationStatechart32, transition32, hs, hp] <;>
    (try split_ifs) <;> simp_all

/-- In 32-bit arithmetic too, leftTurnAngle is 90 after every run from the
initial statics. -/
theorem run32_leftTurnAngle {A : Type} (xs : List (Snapshot A)) :
    (run32 Statics.init xs).leftTurnAngle = 90 := by
  have key : ∀ (ys : List (Snapshot A)) (s : Statics), s.leftTurnAngle = 90 →
      (run32 s ys).leftTurnAngle = 90 := by
    intro ys
    induction ys with
    | nil => exact fun s h => h
    | cons y ys ih => exact fun s h => ih (step32 s y) (step32_leftTurnAngle s y h)
  exact key xs Statics.init rfl

end IRobotNavigation
